import Mathlib

/-!
# WhatsApp-Automation-System — verification of the admission / answer core

Shallow embedding of the request-admission and answer-serving engine:

* `rate_limiter.py` — `TokenBucket`, `SlidingWindowCounter`, `RateLimiter`
  (`check_rate_limit`), including the stats-dictionary accesses that can raise
  `KeyError` in Python;
* `app.py` — `RAGCacheManager.get_or_create_rag`, modelled as a two-thread
  interleaving system at the granularity of its lock-protected sections;
* `Rag.py` — `RAGCache.get_cached_query` / `RAGCache.get`,
  `GeminiRESTChat._call_api`, `RAGBot.invoke`, `RAGBot.invoke_for_Res` and
  `RAGBot._extract_price_from_menu`.

Python floats (timestamps, token counts, prices) are modelled as rationals.
Python exceptions are modelled explicitly with `Except PyExc`.  The two
content hashes (`sha256` for identities, `md5` for message bodies) are
modelled as the injective functions they are assumed to be: an identity is
the pre-hash string `client_id ++ ":" ++ phone_number` and a message hash is
the normalised message text itself.
-/

namespace WhatsAppVerify

/-! ## Python dictionary primitives -/

/-- Python exceptions that the embedded code can raise. -/
inductive PyExc where
  | keyError (key : String)
  | attributeError
  | runtimeError
  | zeroDivisionError
  deriving DecidableEq

/-- Python `int()` on a number: truncation toward zero. -/
def pyInt (q : ℚ) : ℤ :=
  if q < 0 then ⌈q⌉ else ⌊q⌋

/-- `d.get(k)` on a Python `dict`, modelled as an insertion-ordered
association list. -/
def dictLookup {α : Type} (d : List (String × α)) (k : String) : Option α :=
  (d.find? (fun p => p.1 == k)).map (·.2)

/-- `d[k] = v`: overwrite in place when the key exists, append otherwise
(Python dicts preserve insertion order). -/
def dictInsert {α : Type} (d : List (String × α)) (k : String) (v : α) :
    List (String × α) :=
  match d with
  | [] => [(k, v)]
  | (k', v') :: rest =>
      if k' == k then (k, v) :: rest else (k', v') :: dictInsert rest k v

/-- `del d[k]` / `d.pop(k, None)`. -/
def dictErase {α : Type} (d : List (String × α)) (k : String) :
    List (String × α) :=
  d.filter (fun p => p.1 != k)

/-- `d[k]` as an expression: raises `KeyError` when the key is absent. -/
def dictGet {α : Type} (d : List (String × α)) (k : String) :
    Except PyExc α :=
  match dictLookup d k with
  | some v => Except.ok v
  | none => Except.error (PyExc.keyError k)

/-- `d[k] += 1` on a counter dictionary: a `KeyError` when `k` is absent,
exactly as in Python. -/
def dictIncr (d : List (String × ℕ)) (k : String) :
    Except PyExc (List (String × ℕ)) :=
  match dictLookup d k with
  | some n => Except.ok (dictInsert d k (n + 1))
  | none => Except.error (PyExc.keyError k)

/-! ## `rate_limiter.py` — `TokenBucket` (lines 27–50) -/

structure TokenBucket where
  capacity : ℚ
  refill_rate : ℚ
  tokens : ℚ
  last_refill : ℚ
  deriving DecidableEq

namespace TokenBucket

/-- `TokenBucket.__init__`: starts full; `last_refill` is the construction
time. -/
def init (capacity refill_rate now : ℚ) : TokenBucket :=
  { capacity := capacity, refill_rate := refill_rate, tokens := capacity
    last_refill := now }

/-- `TokenBucket.consume`: refill by elapsed time (capped at capacity), then
subtract `n` tokens when enough are available.  `now` is the value
`time.time()` returns during the call. -/
def consume (b : TokenBucket) (now : ℚ) (n : ℚ) : Bool × TokenBucket :=
  let refilled := min b.capacity (b.tokens + (now - b.last_refill) * b.refill_rate)
  if n ≤ refilled then
    (true, { b with tokens := refilled - n, last_refill := now })
  else
    (false, { b with tokens := refilled, last_refill := now })

/-- `TokenBucket.get_wait_time`: when fewer than one token is stored the
unguarded float division `(1.0 - self.tokens) / self.refill_rate` is
evaluated, which raises `ZeroDivisionError` when the refill rate is zero
(reachable from `check_rate_limit` with `request_per_minitue = 0`). -/
def get_wait_time (b : TokenBucket) : Except PyExc ℚ :=
  if 1 ≤ b.tokens then Except.ok 0
  else if b.refill_rate = 0 then Except.error PyExc.zeroDivisionError
  else Except.ok ((1 - b.tokens) / b.refill_rate)

/-- A sequence of `consume` calls; each list element is the pair
`(time of the call, requested token count)`. -/
def runConsumes (b : TokenBucket) (calls : List (ℚ × ℚ)) : TokenBucket :=
  calls.foldl (fun b c => (b.consume c.1 c.2).2) b

/-- Call times are nondecreasing (starting from `t`) and every requested
token count is nonnegative. -/
def callsOK (t : ℚ) (calls : List (ℚ × ℚ)) : Bool :=
  match calls with
  | [] => true
  | (now, n) :: rest => t ≤ now && 0 ≤ n && callsOK now rest

end TokenBucket

/-! ## `rate_limiter.py` — `SlidingWindowCounter` (lines 52–75) -/

structure SlidingWindowCounter where
  window_size : ℚ
  request : List ℚ
  deriving DecidableEq

namespace SlidingWindowCounter

/-- `SlidingWindowCounter.__init__`. -/
def init (w : ℚ) : SlidingWindowCounter := { window_size := w, request := [] }

/-- `_cleanup`: pop entries from the front while they are strictly below
`current_time - window_size`. -/
def cleanup (c : SlidingWindowCounter) (current_time : ℚ) :
    SlidingWindowCounter :=
  { c with
    request := c.request.dropWhile (fun x => x < current_time - c.window_size) }

/-- `add_request`: append the timestamp, then clean up. -/
def add_request (c : SlidingWindowCounter) (timestamp : ℚ) :
    SlidingWindowCounter :=
  cleanup { c with request := c.request ++ [timestamp] } timestamp

/-- `get_count`: clean up, then return the remaining length (the cleanup is
a state change, so the updated counter is returned alongside). -/
def get_count (c : SlidingWindowCounter) (timestamp : ℚ) :
    ℕ × SlidingWindowCounter :=
  let c' := cleanup c timestamp
  (c'.request.length, c')

/-- Record a whole sequence of events. -/
def applyAdds (c : SlidingWindowCounter) (ts : List ℚ) : SlidingWindowCounter :=
  ts.foldl add_request c

end SlidingWindowCounter

/-! ## Sorted-list facts used for window counters -/

/-- On a nondecreasing list, popping the stale prefix is the same as
filtering out every stale element. -/
theorem dropWhile_lt_eq_filter (c : ℚ) :
    ∀ (l : List ℚ), l.Sorted (· ≤ ·) →
      l.dropWhile (fun x => decide (x < c)) = l.filter (fun x => decide (c ≤ x)) := by
  intro l hl
  induction l with
  | nil => rfl
  | cons a l ih =>
      have ha : ∀ x ∈ l, a ≤ x := (List.sorted_cons.mp hl).1
      have hl' : l.Sorted (· ≤ ·) := (List.sorted_cons.mp hl).2
      by_cases h : a < c
      · have e1 : (a :: l).dropWhile (fun x => decide (x < c)) =
            l.dropWhile (fun x => decide (x < c)) := by
          simp [List.dropWhile_cons, h]
        have e2 : (a :: l).filter (fun x => decide (c ≤ x)) =
            l.filter (fun x => decide (c ≤ x)) := by
          simp [List.filter_cons, not_le.mpr h]
        rw [e1, e2]; exact ih hl'
      · have hca : c ≤ a := le_of_not_lt h
        have e1 : (a :: l).dropWhile (fun x => decide (x < c)) = a :: l := by
          simp [List.dropWhile_cons, h]
        have e2 : (a :: l).filter (fun x => decide (c ≤ x)) =
            a :: l.filter (fun x => decide (c ≤ x)) := by
          simp [List.filter_cons, hca]
        rw [e1, e2]
        congr 1
        exact (List.filter_eq_self.mpr (fun x hx => by simp [le_trans hca (ha x hx)])).symm

namespace SlidingWindowCounter

/-- Running a nondecreasing sequence of `add_request` calls and then
querying at a time `t` no earlier than any event counts exactly the events
at or after the cutoff `t - w`. -/
theorem count_applyAdds (w : ℚ) :
    ∀ (ts r : List ℚ) (t : ℚ), (r ++ ts).Sorted (· ≤ ·) →
      (∀ x ∈ r ++ ts, x ≤ t) →
      ((applyAdds ⟨w, r⟩ ts).get_count t).1 =
        ((r ++ ts).filter (fun x => decide (t - w ≤ x))).length := by
  intro ts
  induction ts with
  | nil =>
      intro r t hs hb
      simp only [applyAdds, List.foldl_nil, get_count, cleanup, List.append_nil] at *
      rw [dropWhile_lt_eq_filter (t - w) r hs]
  | cons τ rest ih =>
      intro r t hs hb
      have hsr : (r ++ [τ]).Sorted (· ≤ ·) := by
        have : (r ++ [τ]).Sublist (r ++ τ :: rest) :=
          List.Sublist.append (List.Sublist.refl r)
            (List.cons_sublist_cons.mpr (List.nil_sublist rest))
        exact hs.sublist this
      have step : applyAdds ⟨w, r⟩ (τ :: rest) =
          applyAdds ⟨w, (r ++ [τ]).filter (fun x => decide (τ - w ≤ x))⟩ rest := by
        simp only [applyAdds, List.foldl_cons, add_request, cleanup]
        rw [dropWhile_lt_eq_filter (τ - w) (r ++ [τ]) hsr]
      rw [step]
      set r' := (r ++ [τ]).filter (fun x => decide (τ - w ≤ x)) with hr'
      have hsub : r'.Sublist (r ++ [τ]) := List.filter_sublist _
      have hs' : (r' ++ rest).Sorted (· ≤ ·) := by
        have h1 : (r' ++ rest).Sublist ((r ++ [τ]) ++ rest) :=
          hsub.append (List.Sublist.refl rest)
        have h2 : ((r ++ [τ]) ++ rest).Sorted (· ≤ ·) := by
          rw [List.append_assoc]; simpa using hs
        exact h2.sublist h1
      have hb' : ∀ x ∈ r' ++ rest, x ≤ t := by
        intro x hx
        rcases List.mem_append.mp hx with hx | hx
        · have := hsub.subset hx
          rcases List.mem_append.mp this with hx2 | hx2
          · exact hb x (by simp [hx2])
          · simp only [List.mem_singleton] at hx2
            subst hx2; exact hb x (by simp)
        · exact hb x (by simp [hx])
      have hτt : τ ≤ t := hb τ (by simp)
      rw [ih r' t hs' hb']
      have hassoc : r ++ τ :: rest = (r ++ [τ]) ++ rest := by simp
      rw [hassoc, List.filter_append, List.filter_append, hr', List.filter_filter]
      have hcong : List.filter (fun a => decide (t - w ≤ a) && decide (τ - w ≤ a))
          (r ++ [τ]) = List.filter (fun a => decide (t - w ≤ a)) (r ++ [τ]) := by
        apply List.filter_congr
        intro x hx
        by_cases hxt : t - w ≤ x
        · have h2 : τ - w ≤ x := le_trans (by linarith) hxt
          simp [hxt, h2]
        · simp [hxt]
      rw [hcong]

end SlidingWindowCounter

/-! ## Token bucket invariants -/

namespace TokenBucket

theorem consume_capacity (b : TokenBucket) (now n : ℚ) :
    ((b.consume now n).2).capacity = b.capacity := by
  simp only [consume]
  split <;> rfl

theorem consume_rate (b : TokenBucket) (now n : ℚ) :
    ((b.consume now n).2).refill_rate = b.refill_rate := by
  simp only [consume]
  split <;> rfl

theorem consume_last (b : TokenBucket) (now n : ℚ) :
    ((b.consume now n).2).last_refill = now := by
  simp only [consume]
  split <;> rfl

/-- One valid `consume` call keeps `0 ≤ tokens ≤ capacity`. -/
theorem consume_inv (b : TokenBucket) (now n : ℚ)
    (hrate : 0 ≤ b.refill_rate) (hlo : 0 ≤ b.tokens) (hhi : b.tokens ≤ b.capacity)
    (hnow : b.last_refill ≤ now) (hn : 0 ≤ n) :
    0 ≤ ((b.consume now n).2).tokens ∧
      ((b.consume now n).2).tokens ≤ b.capacity := by
  have hd : 0 ≤ (now - b.last_refill) * b.refill_rate :=
    mul_nonneg (by linarith) hrate
  have hlo' : (0 : ℚ) ≤ min b.capacity (b.tokens + (now - b.last_refill) * b.refill_rate) :=
    le_min (by linarith) (by linarith)
  have hhi' : min b.capacity (b.tokens + (now - b.last_refill) * b.refill_rate) ≤
      b.capacity := min_le_left _ _
  simp only [consume]
  split
  · rename_i hok
    simp only at hok ⊢
    constructor
    · linarith
    · linarith
  · exact ⟨hlo', hhi'⟩

/-- The invariant carried along a whole sequence of valid calls. -/
theorem runConsumes_inv :
    ∀ (calls : List (ℚ × ℚ)) (b : TokenBucket), 0 ≤ b.refill_rate →
      0 ≤ b.tokens → b.tokens ≤ b.capacity →
      callsOK b.last_refill calls = true →
      0 ≤ (runConsumes b calls).tokens ∧
        (runConsumes b calls).tokens ≤ (runConsumes b calls).capacity ∧
        (runConsumes b calls).capacity = b.capacity ∧
        (runConsumes b calls).refill_rate = b.refill_rate ∧
        (callsOK (runConsumes b calls).last_refill [] = true) := by
  intro calls
  induction calls with
  | nil => intro b h1 h2 h3 _; exact ⟨h2, h3, rfl, rfl, rfl⟩
  | cons c rest ih =>
      intro b h1 h2 h3 hok
      obtain ⟨now, n⟩ := c
      simp only [callsOK, Bool.and_eq_true, decide_eq_true_eq] at hok
      obtain ⟨⟨hnow, hn⟩, hrest⟩ := hok
      have hstep := consume_inv b now n h1 h2 h3 hnow hn
      have hcap := consume_capacity b now n
      have hrat := consume_rate b now n
      have hlast := consume_last b now n
      have := ih ((b.consume now n).2) (by rw [hrat]; exact h1) hstep.1
        (by rw [hcap]; exact hstep.2) (by rw [hlast]; exact hrest)
      simp only [runConsumes, List.foldl_cons] at *
      refine ⟨this.1, this.2.1, ?_, ?_, rfl⟩
      · rw [this.2.2.1, hcap]
      · rw [this.2.2.2.1, hrat]

/-- Prefixes of a valid call sequence are valid. -/
theorem callsOK_prefix :
    ∀ (p q : List (ℚ × ℚ)) (t : ℚ), callsOK t (p ++ q) = true →
      callsOK t p = true := by
  intro p
  induction p with
  | nil => intro q t _; rfl
  | cons c rest ih =>
      intro q t h
      obtain ⟨now, n⟩ := c
      simp only [List.cons_append, callsOK, Bool.and_eq_true] at h ⊢
      exact ⟨h.1, ih q now h.2⟩

end TokenBucket

/-! ## Claim C4 — sliding-window count semantics -/

/-- C4 (counterexample): the claim says events exactly at `t - w` are
excluded from `get_count t`.  They are not: the eviction predicate is the
strict `timestamp < t - w`, so a single event at time 0 with window 5 is
still counted when querying at t = 5, while the half-open interval
`(t-w, t] = (0, 5]` contains no recorded event. -/
theorem claim_C4_counterexample :
    ((SlidingWindowCounter.applyAdds (SlidingWindowCounter.init 5) [0]).get_count 5).1 ≠
      (([0] : List ℚ).filter (fun x => decide (5 - 5 < x ∧ x ≤ 5))).length := by
  norm_num [SlidingWindowCounter.applyAdds, SlidingWindowCounter.init,
    SlidingWindowCounter.add_request, SlidingWindowCounter.get_count,
    SlidingWindowCounter.cleanup, List.dropWhile, List.filter]

/-- C4 (amended): for every window size `w`, every nondecreasing sequence of
recorded event timestamps, and every query time `t` not earlier than any
recorded timestamp, `get_count t` equals the number of recorded events in
the *closed* interval `[t-w, t]` — events exactly at `t - w` are included. -/
theorem claim_C4_amended (w t : ℚ) (ts : List ℚ) (hs : ts.Sorted (· ≤ ·))
    (hb : ∀ x ∈ ts, x ≤ t) :
    ((SlidingWindowCounter.applyAdds (SlidingWindowCounter.init w) ts).get_count t).1 =
      (ts.filter (fun x => decide (t - w ≤ x ∧ x ≤ t))).length := by
  have h := SlidingWindowCounter.count_applyAdds w ts [] t (by simpa using hs)
    (by simpa using hb)
  simp only [List.nil_append] at h
  have h2 : ts.filter (fun x => decide (t - w ≤ x ∧ x ≤ t)) =
      ts.filter (fun x => decide (t - w ≤ x)) := by
    apply List.filter_congr
    intro x hx
    have hxt := hb x hx
    by_cases hlo : t - w ≤ x <;> simp [hlo, hxt]
  rw [h2]
  exact h

/-- C4 (witness): the amended theorem applied to the concrete history
`[1, 2]` with window 5, queried at time 6. -/
theorem claim_C4_witness :
    ((SlidingWindowCounter.applyAdds (SlidingWindowCounter.init 5) [1, 2]).get_count 6).1 =
      (([1, 2] : List ℚ).filter (fun x => decide (6 - 5 ≤ x ∧ x ≤ 6))).length :=
  claim_C4_amended 5 6 [1, 2] (by norm_num [List.sorted_cons])
    (by intro x hx; rcases List.mem_cons.mp hx with h | h
        · rw [h]; norm_num
        · rw [List.mem_singleton.mp h]; norm_num)

/-! ## Claim C7 — token bucket invariants -/

/-- C7 (counterexample): the claim quantifies over consume calls with *any*
arguments; a call with the negative argument `-1` returns `true` and drives
the stored token count above the capacity fixed at construction. -/
theorem claim_C7_counterexample :
    ((TokenBucket.init 1 0 0).consume 0 (-1)).2.tokens >
      (TokenBucket.init 1 0 0).capacity := by
  norm_num [TokenBucket.init, TokenBucket.consume]

/-- C7 (amended): for buckets built with nonnegative capacity and refill
rate, and for every sequence of `consume` calls with *nonnegative* token
arguments and nondecreasing call times, the stored token count stays within
`[0, capacity]` after every prefix of the sequence; moreover a `consume`
call that returns `false` leaves exactly the capped elapsed-time refill,
performing no subtraction. -/
theorem claim_C7_amended (cap rate t0 : ℚ) (hcap : 0 ≤ cap) (hrate : 0 ≤ rate)
    (calls p q : List (ℚ × ℚ)) (hpq : calls = p ++ q)
    (hok : TokenBucket.callsOK t0 calls = true) :
    (0 ≤ (TokenBucket.runConsumes (TokenBucket.init cap rate t0) p).tokens ∧
      (TokenBucket.runConsumes (TokenBucket.init cap rate t0) p).tokens ≤ cap) ∧
    (∀ (b : TokenBucket) (now n : ℚ), (b.consume now n).1 = false →
      (b.consume now n).2.tokens =
        min b.capacity (b.tokens + (now - b.last_refill) * b.refill_rate)) := by
  constructor
  · have hokp : TokenBucket.callsOK t0 p = true :=
      TokenBucket.callsOK_prefix p q t0 (hpq ▸ hok)
    have h := TokenBucket.runConsumes_inv p (TokenBucket.init cap rate t0)
      hrate hcap (le_refl cap) hokp
    have hc : ((TokenBucket.init cap rate t0).runConsumes p).capacity = cap :=
      h.2.2.1
    exact ⟨h.1, le_trans h.2.1 (le_of_eq hc)⟩
  · intro b now n hfail
    simp only [TokenBucket.consume] at hfail ⊢
    by_cases h : n ≤ min b.capacity (b.tokens + (now - b.last_refill) * b.refill_rate)
    · simp [h] at hfail
    · simp [h]

/-- C7 (witness): the amended theorem applied to the one-call sequence
`[(0, 1)]` on a bucket of capacity 2 and refill rate 1. -/
theorem claim_C7_witness :
    0 ≤ (TokenBucket.runConsumes (TokenBucket.init 2 1 0) [(0, 1)]).tokens :=
  (claim_C7_amended 2 1 0 (by norm_num) (by norm_num) [(0, 1)] [(0, 1)] []
    (by simp) (by norm_num [TokenBucket.callsOK])).1.1

/-! ## `rate_limiter.py` — `RateLimitConfig` (lines 12–25) and `RateLimiter` -/

structure RateLimitConfig where
  request_per_minitue : ℕ := 300
  request_per_hour : ℕ := 5000
  request_per_day : ℕ := 50000
  brust_size : ℕ := 120
  brust_window : ℕ := 60
  duplicate_message_window : ℕ := 10
  max_message_lengh : ℕ := 4000
  suspicious_requests_per_minitue : ℕ := 100
  block_durtion : ℕ := 120
  deriving DecidableEq

/-- The configuration the deployed module-level `RateLimiter()` uses. -/
def defaultConfig : RateLimitConfig := {}

/-- The admission decision triple `(allowed, reason, retryAfterSeconds)`. -/
abbrev RLDecision := Bool × Option String × Option ℤ

structure RateLimiter where
  config : RateLimitConfig
  token_bucket : List (String × TokenBucket)
  minitue_counters : List (String × SlidingWindowCounter)
  hour_counters : List (String × SlidingWindowCounter)
  day_counters : List (String × SlidingWindowCounter)
  last_messages : List (String × (String × ℚ))
  burst_tracker : List (String × List ℚ)
  blocked_users : List (String × ℚ)
  stats : List (String × ℕ)
  last_cleanup : ℚ
  deriving DecidableEq

namespace RateLimiter

/-- `RateLimiter.__init__`: note the stats dictionary is created with the
key `burst_violations` (correctly spelled). -/
def init (config : RateLimitConfig) (now : ℚ) : RateLimiter :=
  { config := config
    token_bucket := []
    minitue_counters := []
    hour_counters := []
    day_counters := []
    last_messages := []
    burst_tracker := []
    blocked_users := []
    stats := [("total_requests", 0), ("blocked_requests", 0),
              ("spam_detected", 0), ("burst_violations", 0)]
    last_cleanup := now }

/-- `_get_user_id`: `sha256(f"{client_id}:{phone_number}")[:16]`, modelled
as the pre-hash string (treating the hash as injective). -/
def getUserId (phone_number client_id : String) : String :=
  client_id ++ ":" ++ phone_number

/-- `hashlib.md5(message.lower().strip().encode()).hexdigest()`: the
composite "normalise, then digest" map is modelled as a single abstract
injective function on message texts, here the identity — two messages have
the same content hash in the model exactly when they are the same text. -/
def messageHash (message : String) : String :=
  message

/-- `_cleanup_old_data` (lines 181–215). -/
def cleanupOldData (rl : RateLimiter) (current_time : ℚ) : RateLimiter :=
  let cutoff := current_time - 3600
  let last_messages := rl.last_messages.filter (fun p => decide (¬ p.2.2 < cutoff))
  let blocked_users := rl.blocked_users.filter (fun p => decide (current_time < p.2))
  let day := rl.day_counters.map
    (fun p => (p.1, (p.2.get_count current_time).2))
  let inactive := (day.filter (fun p => p.2.request.length == 0)).map (·.1)
  { rl with
    last_cleanup := current_time
    last_messages := last_messages
    blocked_users := blocked_users
    token_bucket := rl.token_bucket.filter (fun p => ¬ inactive.contains p.1)
    minitue_counters := rl.minitue_counters.filter (fun p => ¬ inactive.contains p.1)
    hour_counters := rl.hour_counters.filter (fun p => ¬ inactive.contains p.1)
    day_counters := day.filter (fun p => ¬ inactive.contains p.1)
    burst_tracker := rl.burst_tracker.filter (fun p => ¬ inactive.contains p.1) }

/-- Step 6 of `check_rate_limit` (source lines 155–178): record the event
in the three sliding counters, then apply the suspicious threshold and the
minute / hour / day limits, and finish with the opportunistic sweep. -/
def checkWindows (rl : RateLimiter) (user_id : String) (current_time : ℚ) :
    Except PyExc (RLDecision × RateLimiter) :=
  let cfg := rl.config
  match dictGet rl.minitue_counters user_id with
  | Except.error e => Except.error e
  | Except.ok mc0 =>
  match dictGet rl.hour_counters user_id with
  | Except.error e => Except.error e
  | Except.ok hc0 =>
  match dictGet rl.day_counters user_id with
  | Except.error e => Except.error e
  | Except.ok dc0 =>
  let mcq := (mc0.add_request current_time).get_count current_time
  let hcq := (hc0.add_request current_time).get_count current_time
  let dcq := (dc0.add_request current_time).get_count current_time
  let rl := { rl with
    minitue_counters := dictInsert rl.minitue_counters user_id mcq.2
    hour_counters := dictInsert rl.hour_counters user_id hcq.2
    day_counters := dictInsert rl.day_counters user_id dcq.2 }
  if mcq.1 > cfg.suspicious_requests_per_minitue then
    let rl := { rl with
      blocked_users :=
        dictInsert rl.blocked_users user_id
          (current_time + (cfg.block_durtion : ℚ)) }
    match dictIncr rl.stats "blocked_requests" with
    | Except.error e => Except.error e
    | Except.ok stats3 =>
        Except.ok ((false,
          some "Suspicious activity detected. Temporarily blocked.",
          some (cfg.block_durtion : ℤ)), { rl with stats := stats3 })
  else
  if mcq.1 > cfg.request_per_minitue then
    Except.ok ((false, some "Too many requests in per minute. Please wait.",
      some 60), rl)
  else
  if hcq.1 > cfg.request_per_hour then
    Except.ok ((false, some "Hourly request limit reached. Please try again later.",
      some 300), rl)
  else
  if dcq.1 > cfg.request_per_day then
    Except.ok ((false, some "Dailty request limit reached. Please try again tommorow.",
      some 3600), rl)
  else
  let rl := if current_time - rl.last_cleanup > 300 then
      rl.cleanupOldData current_time
    else rl
  Except.ok ((true, none, none), rl)

/-- Step 5 of `check_rate_limit` (source lines 151–153): token bucket.  On
the rejection path `int(get_wait_time()) + 1` is computed, so a
`ZeroDivisionError` raised by `get_wait_time` propagates. -/
def checkToken (rl : RateLimiter) (user_id : String) (current_time : ℚ) :
    Except PyExc (RLDecision × RateLimiter) :=
  match dictGet rl.token_bucket user_id with
  | Except.error e => Except.error e
  | Except.ok tb0 =>
  let consumed := tb0.consume current_time 1
  let rl := { rl with token_bucket := dictInsert rl.token_bucket user_id consumed.2 }
  if consumed.1 = false then
    match consumed.2.get_wait_time with
    | Except.error e => Except.error e
    | Except.ok w =>
        Except.ok ((false, some "Rate limit exceeded. Please wait.",
          some (pyInt w + 1)), rl)
  else
    checkWindows rl user_id current_time

/-- Step 4 of `check_rate_limit` (source lines 139–149): burst tracking.
The source increments the misspelled stats key `burst_voilations` on the
rejection path, which raises `KeyError`. -/
def checkBurst (rl : RateLimiter) (user_id : String) (current_time : ℚ) :
    Except PyExc (RLDecision × RateLimiter) :=
  let cfg := rl.config
  match dictGet rl.burst_tracker user_id with
  | Except.error e => Except.error e
  | Except.ok bt0 =>
  let burst_cutoff := current_time - (cfg.brust_window : ℚ)
  let bt := (bt0 ++ [current_time]).dropWhile (fun x => x < burst_cutoff)
  let rl := { rl with burst_tracker := dictInsert rl.burst_tracker user_id bt }
  if bt.length > cfg.brust_size then
    match dictIncr rl.stats "burst_voilations" with
    | Except.error e => Except.error e
    | Except.ok stats2 =>
        Except.ok ((false,
          some "Too many requests in short time. Please slow down.", some 10),
          { rl with stats := stats2 })
  else
    checkToken rl user_id current_time

/-- Step 3 of `check_rate_limit` (source lines 136–137): message length. -/
def checkLength (rl : RateLimiter) (user_id message : String)
    (current_time : ℚ) : Except PyExc (RLDecision × RateLimiter) :=
  if message.length > rl.config.max_message_lengh then
    Except.ok ((false,
      some "Message too long. Please keep it under 2000 character.", none), rl)
  else
    checkBurst rl user_id current_time

/-- Step 2 of `check_rate_limit` (source lines 126–134): duplicate
suppression; on the non-duplicate path the new hash and timestamp are
recorded before moving on. -/
def checkDuplicate (rl : RateLimiter) (user_id message : String)
    (current_time : ℚ) : Except PyExc (RLDecision × RateLimiter) :=
  let cfg := rl.config
  let message_hash := messageHash message
  let dup : Bool :=
    match dictLookup rl.last_messages user_id with
    | some (last_hash, last_time) =>
        decide (last_hash = message_hash ∧
          current_time - last_time < (cfg.duplicate_message_window : ℚ))
    | none => false
  if dup then
    match dictIncr rl.stats "spam_detected" with
    | Except.error e => Except.error e
    | Except.ok stats1 =>
        Except.ok ((false,
          some "Duplicated message detected. Please wait before responding.",
          some 30), { rl with stats := stats1 })
  else
    let rl := { rl with
      last_messages :=
        dictInsert rl.last_messages user_id (message_hash, current_time) }
    checkLength rl user_id message current_time

/-- Lazy per-identity tracker initialisation (source lines 116–124). -/
def initTrackers (rl : RateLimiter) (user_id : String) (current_time : ℚ) :
    RateLimiter :=
  let cfg := rl.config
  let rl :=
    if (dictLookup rl.token_bucket user_id).isNone then
      { rl with
        token_bucket :=
          dictInsert rl.token_bucket user_id
            (TokenBucket.init (cfg.brust_size : ℚ)
              ((cfg.request_per_minitue : ℚ) / 60) current_time) }
    else rl
  if (dictLookup rl.minitue_counters user_id).isNone then
    { rl with
      minitue_counters :=
        dictInsert rl.minitue_counters user_id (SlidingWindowCounter.init 60)
      hour_counters :=
        dictInsert rl.hour_counters user_id (SlidingWindowCounter.init 3600)
      day_counters :=
        dictInsert rl.day_counters user_id (SlidingWindowCounter.init 86400)
      burst_tracker := dictInsert rl.burst_tracker user_id [] }
  else rl

/-- Step 1 of `check_rate_limit` (source lines 108–124): temporary block
check (an expired block entry is deleted), then tracker initialisation. -/
def checkBlocked (rl : RateLimiter) (user_id message : String)
    (current_time : ℚ) : Except PyExc (RLDecision × RateLimiter) :=
  match dictLookup rl.blocked_users user_id with
  | some unblock_time =>
      if current_time < unblock_time then
        Except.ok ((false, some "Temporary block due to suspicious activity",
          some ⌊unblock_time - current_time⌋), rl)
      else
        let rl := { rl with blocked_users := dictErase rl.blocked_users user_id }
        checkDuplicate (initTrackers rl user_id current_time) user_id message
          current_time
  | none =>
      checkDuplicate (initTrackers rl user_id current_time) user_id message
        current_time

/-- `check_rate_limit` (lines 101–179), assembled from the staged checks
above, with each Python early `return` mirrored by a branch and each bare
`d[k]` dictionary access and `d[k] += 1` counter update allowed to raise
`KeyError` exactly as in the source.  `current_time` is the value
`time.time()` returns during the call. -/
def check_rate_limit (rl : RateLimiter) (phone_number client_id message : String)
    (current_time : ℚ) : Except PyExc (RLDecision × RateLimiter) :=
  let user_id := getUserId phone_number client_id
  match dictIncr rl.stats "total_requests" with
  | Except.error e => Except.error e
  | Except.ok stats0 =>
      checkBlocked { rl with stats := stats0 } user_id message current_time

/-- `unblock_user` (lines 245–250). -/
def unblock_user (rl : RateLimiter) (phone_number client_id : String) :
    Bool × RateLimiter :=
  let user_id := getUserId phone_number client_id
  if (dictLookup rl.blocked_users user_id).isSome then
    (true, { rl with blocked_users := dictErase rl.blocked_users user_id })
  else
    (false, rl)

/-- The decision part of a `check_rate_limit` outcome. -/
def decisionOf (r : Except PyExc (RLDecision × RateLimiter)) :
    Except PyExc RLDecision :=
  r.map (·.1)

/-- Run a sequence of admission checks, propagating the state from call to
call and stopping at the first raised exception.  Each list entry is
`(phone_number, client_id, message, time)`. -/
def runSeq : RateLimiter → List (String × String × String × ℚ) →
    Except PyExc RateLimiter
  | rl, [] => Except.ok rl
  | rl, (ph, cl, m, t) :: rest =>
      match rl.check_rate_limit ph cl m t with
      | Except.error e => Except.error e
      | Except.ok (_, rl') => runSeq rl' rest

end RateLimiter

/-! ## Claim C1 — `check_rate_limit` never raises -/

/-- A small burst capacity making the burst branch reachable in three
calls; all other tunables keep their source defaults. -/
def c1Cfg : RateLimitConfig := { brust_size := 2 }

/-- State after the first admitted message `"a"` at time 0. -/
def c1State1 : RateLimiter :=
  { config := c1Cfg
    token_bucket := [("c:p", { capacity := 2, refill_rate := 5, tokens := 1, last_refill := 0 })]
    minitue_counters := [("c:p", { window_size := 60, request := [0] })]
    hour_counters := [("c:p", { window_size := 3600, request := [0] })]
    day_counters := [("c:p", { window_size := 86400, request := [0] })]
    last_messages := [("c:p", ("a", 0))]
    burst_tracker := [("c:p", [0])]
    blocked_users := []
    stats := [("total_requests", 1), ("blocked_requests", 0),
              ("spam_detected", 0), ("burst_violations", 0)]
    last_cleanup := 0 }

/-- State after the second admitted message `"b"` at time 0. -/
def c1State2 : RateLimiter :=
  { config := c1Cfg
    token_bucket := [("c:p", { capacity := 2, refill_rate := 5, tokens := 0, last_refill := 0 })]
    minitue_counters := [("c:p", { window_size := 60, request := [0, 0] })]
    hour_counters := [("c:p", { window_size := 3600, request := [0, 0] })]
    day_counters := [("c:p", { window_size := 86400, request := [0, 0] })]
    last_messages := [("c:p", ("b", 0))]
    burst_tracker := [("c:p", [0, 0])]
    blocked_users := []
    stats := [("total_requests", 2), ("blocked_requests", 0),
              ("spam_detected", 0), ("burst_violations", 0)]
    last_cleanup := 0 }

set_option maxHeartbeats 1000000 in
theorem c1_step1 :
    RateLimiter.check_rate_limit (RateLimiter.init c1Cfg 0) "p" "c" "a" 0 =
      Except.ok ((true, none, none), c1State1) := by
  norm_num [RateLimiter.check_rate_limit, RateLimiter.checkBlocked,
    RateLimiter.initTrackers, RateLimiter.checkDuplicate, RateLimiter.checkLength,
    RateLimiter.checkBurst, RateLimiter.checkToken, RateLimiter.checkWindows,
    RateLimiter.init, c1Cfg, c1State1,
    RateLimiter.getUserId, RateLimiter.messageHash, dictIncr, dictLookup,
    dictInsert, dictErase, dictGet, TokenBucket.init, TokenBucket.consume,
    SlidingWindowCounter.init, SlidingWindowCounter.add_request,
    SlidingWindowCounter.get_count, SlidingWindowCounter.cleanup,
    List.dropWhile, List.find?, RateLimiter.cleanupOldData,
    show ("a" : String).length = 1 from rfl,
    show ("c" ++ ":" ++ "p" : String) = "c:p" from rfl]

set_option maxHeartbeats 1000000 in
theorem c1_step2 :
    RateLimiter.check_rate_limit c1State1 "p" "c" "b" 0 =
      Except.ok ((true, none, none), c1State2) := by
  norm_num [RateLimiter.check_rate_limit, RateLimiter.checkBlocked,
    RateLimiter.initTrackers, RateLimiter.checkDuplicate, RateLimiter.checkLength,
    RateLimiter.checkBurst, RateLimiter.checkToken, RateLimiter.checkWindows,
    c1State1, c1Cfg, c1State2,
    RateLimiter.getUserId, RateLimiter.messageHash, dictIncr, dictLookup,
    dictInsert, dictErase, dictGet, TokenBucket.init, TokenBucket.consume,
    SlidingWindowCounter.init, SlidingWindowCounter.add_request,
    SlidingWindowCounter.get_count, SlidingWindowCounter.cleanup,
    List.dropWhile, List.find?, RateLimiter.cleanupOldData,
    show ("b" : String).length = 1 from rfl,
    show (("a" : String) = "b") = False from by simp,
    show ("c" ++ ":" ++ "p" : String) = "c:p" from rfl]

set_option maxHeartbeats 1000000 in
theorem c1_step3 :
    RateLimiter.check_rate_limit c1State2 "p" "c" "d" 0 =
      Except.error (PyExc.keyError "burst_voilations") := by
  norm_num [RateLimiter.check_rate_limit, RateLimiter.checkBlocked,
    RateLimiter.initTrackers, RateLimiter.checkDuplicate, RateLimiter.checkLength,
    RateLimiter.checkBurst, RateLimiter.checkToken, RateLimiter.checkWindows,
    c1State2, c1Cfg,
    RateLimiter.getUserId, RateLimiter.messageHash, dictIncr, dictLookup,
    dictInsert, dictErase, dictGet, TokenBucket.init, TokenBucket.consume,
    SlidingWindowCounter.init, SlidingWindowCounter.add_request,
    SlidingWindowCounter.get_count, SlidingWindowCounter.cleanup,
    List.dropWhile, List.find?, RateLimiter.cleanupOldData,
    show ("d" : String).length = 1 from rfl,
    show (("b" : String) = "d") = False from by simp,
    show (("total_requests" : String) == "burst_voilations") = false from by simp,
    show (("blocked_requests" : String) == "burst_voilations") = false from by simp,
    show (("spam_detected" : String) == "burst_voilations") = false from by simp,
    show (("burst_violations" : String) == "burst_voilations") = false from by simp,
    show ("c" ++ ":" ++ "p" : String) = "c:p" from rfl]

/-- C1 (code bug): the burst-capacity rejection path does *not* return
normally: `__init__` creates the stats key `burst_violations` while the
burst branch increments the misspelled key `burst_voilations`, so the
branch raises `KeyError` instead of returning a `(false, reason, retry)`
triple.  With burst capacity 2, three distinct messages from one sender at
the same instant reach the burst branch on the third call, which raises. -/
theorem claim_C1_theorem :
    RateLimiter.runSeq (RateLimiter.init c1Cfg 0)
      [("p", "c", "a", 0), ("p", "c", "b", 0), ("p", "c", "d", 0)] =
      Except.error (PyExc.keyError "burst_voilations") := by
  simp only [RateLimiter.runSeq, c1_step1, c1_step2, c1_step3]

/-! ## Claim C10 — the per-minute-limit rejection is dead under defaults -/

/-- The reason component of a `check_rate_limit` outcome. -/
def reasonProj (r : Except PyExc (RLDecision × RateLimiter)) : Option String :=
  match r with
  | Except.ok v => v.1.2.1
  | Except.error _ => none

theorem checkWindows_no_minute (rl : RateLimiter) (uid : String) (now : ℚ)
    (hcfg : rl.config = defaultConfig) (s' : RateLimiter) :
    RateLimiter.checkWindows rl uid now ≠
      Except.ok ((false, some "Too many requests in per minute. Please wait.",
        some 60), s') := by
  intro h
  unfold RateLimiter.checkWindows at h
  simp only [hcfg, defaultConfig] at h
  repeat' split at h
  all_goals
    first
      | exact Except.noConfusion h
      | omega
      | (have hr := congrArg reasonProj h
         simp only [reasonProj] at hr
         exact absurd hr (by decide))

theorem checkToken_no_minute (rl : RateLimiter) (uid : String) (now : ℚ)
    (hcfg : rl.config = defaultConfig) (s' : RateLimiter) :
    RateLimiter.checkToken rl uid now ≠
      Except.ok ((false, some "Too many requests in per minute. Please wait.",
        some 60), s') := by
  intro h
  unfold RateLimiter.checkToken at h
  try simp only [] at h
  repeat' split at h
  all_goals
    first
      | exact Except.noConfusion h
      | (have hr := congrArg reasonProj h
         simp only [reasonProj] at hr
         exact absurd hr (by decide))
      | exact checkWindows_no_minute _ uid now (by exact hcfg) s' h

theorem checkBurst_no_minute (rl : RateLimiter) (uid : String) (now : ℚ)
    (hcfg : rl.config = defaultConfig) (s' : RateLimiter) :
    RateLimiter.checkBurst rl uid now ≠
      Except.ok ((false, some "Too many requests in per minute. Please wait.",
        some 60), s') := by
  intro h
  unfold RateLimiter.checkBurst at h
  try simp only [] at h
  repeat' split at h
  all_goals
    first
      | exact Except.noConfusion h
      | (have hr := congrArg reasonProj h
         simp only [reasonProj] at hr
         exact absurd hr (by decide))
      | exact checkToken_no_minute _ uid now (by exact hcfg) s' h

theorem checkLength_no_minute (rl : RateLimiter) (uid m : String) (now : ℚ)
    (hcfg : rl.config = defaultConfig) (s' : RateLimiter) :
    RateLimiter.checkLength rl uid m now ≠
      Except.ok ((false, some "Too many requests in per minute. Please wait.",
        some 60), s') := by
  intro h
  unfold RateLimiter.checkLength at h
  try simp only [] at h
  repeat' split at h
  all_goals
    first
      | exact Except.noConfusion h
      | (have hr := congrArg reasonProj h
         simp only [reasonProj] at hr
         exact absurd hr (by decide))
      | exact checkBurst_no_minute _ uid now (by exact hcfg) s' h

theorem checkDuplicate_no_minute (rl : RateLimiter) (uid m : String) (now : ℚ)
    (hcfg : rl.config = defaultConfig) (s' : RateLimiter) :
    RateLimiter.checkDuplicate rl uid m now ≠
      Except.ok ((false, some "Too many requests in per minute. Please wait.",
        some 60), s') := by
  intro h
  unfold RateLimiter.checkDuplicate at h
  try simp only [] at h
  repeat' split at h
  all_goals
    first
      | exact Except.noConfusion h
      | (have hr := congrArg reasonProj h
         simp only [reasonProj] at hr
         exact absurd hr (by decide))
      | exact checkLength_no_minute _ uid m now (by exact hcfg) s' h

theorem initTrackers_config (rl : RateLimiter) (uid : String) (now : ℚ) :
    (RateLimiter.initTrackers rl uid now).config = rl.config := by
  unfold RateLimiter.initTrackers
  simp only []
  repeat' split
  all_goals rfl

theorem checkBlocked_no_minute (rl : RateLimiter) (uid m : String) (now : ℚ)
    (hcfg : rl.config = defaultConfig) (s' : RateLimiter) :
    RateLimiter.checkBlocked rl uid m now ≠
      Except.ok ((false, some "Too many requests in per minute. Please wait.",
        some 60), s') := by
  intro h
  unfold RateLimiter.checkBlocked at h
  try simp only [] at h
  repeat' split at h
  all_goals
    first
      | exact Except.noConfusion h
      | (have hr := congrArg reasonProj h
         simp only [reasonProj] at hr
         exact absurd hr (by decide))
      | exact checkDuplicate_no_minute _ uid m now (by rw [initTrackers_config]; exact hcfg) s' h

/-- C10: with the default configuration (suspicious threshold 100 strictly
below the per-minute limit 300), `check_rate_limit` can never produce the
per-minute-limit rejection, whatever the state and the request: the branch
is only reached when the minute count is at most the suspicious threshold,
and 100 < 300. -/
theorem claim_C10_theorem (rl : RateLimiter) (ph cl m : String) (now : ℚ)
    (s' : RateLimiter) :
    RateLimiter.check_rate_limit { rl with config := defaultConfig } ph cl m now ≠
      Except.ok ((false, some "Too many requests in per minute. Please wait.",
        some 60), s') := by
  intro h
  unfold RateLimiter.check_rate_limit at h
  try simp only [] at h
  repeat' split at h
  all_goals
    first
      | exact Except.noConfusion h
      | exact checkBlocked_no_minute _ _ m now (by rfl) s' h

theorem dictLookup_insert_ne {α : Type} (d : List (String × α)) (k k' : String)
    (v : α) (h : ¬ k' = k) :
    dictLookup (dictInsert d k v) k' = dictLookup d k' := by
  have e0 : (k == k') = false := beq_eq_false_iff_ne.mpr (Ne.symm h)
  induction d with
  | nil => simp [dictInsert, dictLookup, List.find?, e0]
  | cons p rest ih =>
      obtain ⟨pk, pv⟩ := p
      by_cases hpk : pk = k
      · subst hpk
        simp [dictInsert, dictLookup, List.find?, e0]
      · simp only [dictInsert, beq_iff_eq, hpk, if_false]
        by_cases hpk' : pk = k'
        · subst hpk'
          simp [dictLookup, List.find?]
        · simp only [dictLookup, List.find?] at ih ⊢
          have e1 : (pk == k') = false := beq_eq_false_iff_ne.mpr hpk'
          simp only [e1]
          exact ih

theorem initTrackers_last_messages (rl : RateLimiter) (uid : String) (now : ℚ) :
    (RateLimiter.initTrackers rl uid now).last_messages = rl.last_messages := by
  unfold RateLimiter.initTrackers
  simp only []
  repeat' split
  all_goals rfl

theorem initTrackers_stats (rl : RateLimiter) (uid : String) (now : ℚ) :
    (RateLimiter.initTrackers rl uid now).stats = rl.stats := by
  unfold RateLimiter.initTrackers
  simp only []
  repeat' split
  all_goals rfl

/-- The rejection reasons the window-threshold stage can produce (`none`
stands for admission or a raised exception). -/
def windowsReasons : List (Option String) :=
  [none,
   some "Suspicious activity detected. Temporarily blocked.",
   some "Too many requests in per minute. Please wait.",
   some "Hourly request limit reached. Please try again later.",
   some "Dailty request limit reached. Please try again tommorow."]

/-- Reasons from the token-bucket stage onwards. -/
def tokenReasons : List (Option String) :=
  some "Rate limit exceeded. Please wait." :: windowsReasons

/-- Reasons from the burst stage onwards. -/
def burstReasons : List (Option String) :=
  some "Too many requests in short time. Please slow down." :: tokenReasons

/-- Reasons from the length stage onwards. -/
def postDupReasons : List (Option String) :=
  some "Message too long. Please keep it under 2000 character." :: burstReasons

theorem checkWindows_reasons (rl : RateLimiter) (uid : String) (now : ℚ) :
    reasonProj (RateLimiter.checkWindows rl uid now) ∈ windowsReasons := by
  unfold RateLimiter.checkWindows
  try simp only []
  repeat' split
  all_goals simp [reasonProj, windowsReasons]

theorem checkToken_reasons (rl : RateLimiter) (uid : String) (now : ℚ) :
    reasonProj (RateLimiter.checkToken rl uid now) ∈ tokenReasons := by
  unfold RateLimiter.checkToken
  try simp only []
  repeat' split
  all_goals first
    | exact List.mem_cons_of_mem _ (checkWindows_reasons _ uid now)
    | simp [reasonProj, tokenReasons, windowsReasons]

theorem checkBurst_reasons (rl : RateLimiter) (uid : String) (now : ℚ) :
    reasonProj (RateLimiter.checkBurst rl uid now) ∈ burstReasons := by
  unfold RateLimiter.checkBurst
  try simp only []
  repeat' split
  all_goals first
    | exact List.mem_cons_of_mem _ (checkToken_reasons _ uid now)
    | simp [reasonProj, burstReasons, tokenReasons, windowsReasons]

theorem checkLength_reasons (rl : RateLimiter) (uid m : String) (now : ℚ) :
    reasonProj (RateLimiter.checkLength rl uid m now) ∈ postDupReasons := by
  unfold RateLimiter.checkLength
  try simp only []
  repeat' split
  all_goals first
    | exact List.mem_cons_of_mem _ (checkBurst_reasons _ uid now)
    | simp [reasonProj, postDupReasons, burstReasons, tokenReasons,
        windowsReasons]

/-- Reasons the duplicate stage onwards can produce. -/
def dupReasons : List (Option String) :=
  some "Duplicated message detected. Please wait before responding." ::
    postDupReasons

theorem checkDuplicate_reasons (rl : RateLimiter) (uid m : String) (now : ℚ) :
    reasonProj (RateLimiter.checkDuplicate rl uid m now) ∈ dupReasons := by
  unfold RateLimiter.checkDuplicate
  try simp only []
  repeat' split
  all_goals first
    | exact List.mem_cons_of_mem _ (checkLength_reasons _ uid m now)
    | simp [reasonProj, dupReasons, postDupReasons, burstReasons, tokenReasons,
        windowsReasons]

/-- C10 (witness): the dead branch at one concrete request and state. -/
theorem claim_C10_witness :
    RateLimiter.check_rate_limit
        { RateLimiter.init defaultConfig 0 with config := defaultConfig }
        "p" "c" "m" 0 ≠
      Except.ok ((false, some "Too many requests in per minute. Please wait.",
        some 60), RateLimiter.init defaultConfig 0) :=
  claim_C10_theorem (RateLimiter.init defaultConfig 0) "p" "c" "m" 0
    (RateLimiter.init defaultConfig 0)

/-! ## Claim C9 — duplicate-message suppression -/

/-- C9: for an identity that is not currently blocked (no block entry, or
an expired one) and whose stats counters are intact, a message whose
content hash equals the previously recorded hash is rejected with the
duplicate reason and a 30-second retry hint when it arrives within the
10-second duplicate window; once the window has elapsed the duplicate
rejection can no longer occur (the message proceeds to the later checks). -/
theorem reason_ne_dup_of_checkLength (st : RateLimiter) (uid m : String)
    (now : ℚ) :
    reasonProj (RateLimiter.checkLength st uid m now) ≠
      some "Duplicated message detected. Please wait before responding." := by
  intro hcontra
  have hmem := checkLength_reasons st uid m now
  rw [hcontra] at hmem
  revert hmem
  decide

theorem claim_C9_theorem (rl : RateLimiter) (ph cl m : String) (now t0 : ℚ)
    (a b : ℕ)
    (hwin10 : rl.config.duplicate_message_window = 10)
    (htot : dictLookup rl.stats "total_requests" = some a)
    (hspam : dictLookup rl.stats "spam_detected" = some b)
    (hnb : ∀ u, dictLookup rl.blocked_users (RateLimiter.getUserId ph cl) =
      some u → u ≤ now)
    (hlast : dictLookup rl.last_messages (RateLimiter.getUserId ph cl) =
      some (RateLimiter.messageHash m, t0)) :
    (now - t0 < 10 →
      RateLimiter.decisionOf (rl.check_rate_limit ph cl m now) =
        Except.ok (false,
          some "Duplicated message detected. Please wait before responding.",
          some 30)) ∧
    (¬ now - t0 < 10 →
      reasonProj (rl.check_rate_limit ph cl m now) ≠
        some "Duplicated message detected. Please wait before responding.") := by
  have hstep : ∃ rlA : RateLimiter,
      rl.check_rate_limit ph cl m now =
        RateLimiter.checkDuplicate
          (RateLimiter.initTrackers rlA (RateLimiter.getUserId ph cl) now)
          (RateLimiter.getUserId ph cl) m now ∧
      rlA.last_messages = rl.last_messages ∧
      rlA.stats = dictInsert rl.stats "total_requests" (a + 1) ∧
      rlA.config = rl.config := by
    unfold RateLimiter.check_rate_limit
    simp only [dictIncr, htot]
    cases hbu : dictLookup rl.blocked_users (RateLimiter.getUserId ph cl) with
    | none =>
        refine ⟨{ rl with stats := dictInsert rl.stats "total_requests" (a + 1) },
          ?_, rfl, rfl, rfl⟩
        unfold RateLimiter.checkBlocked
        simp only [hbu]
    | some u =>
        have hu : ¬ now < u := not_lt.mpr (hnb u hbu)
        refine ⟨{ rl with
          stats := dictInsert rl.stats "total_requests" (a + 1)
          blocked_users :=
            dictErase rl.blocked_users (RateLimiter.getUserId ph cl) },
          ?_, rfl, rfl, rfl⟩
        unfold RateLimiter.checkBlocked
        simp only [hbu, hu, if_false]
  obtain ⟨rlA, heq, hlm, hst, hcf⟩ := hstep
  rw [heq]
  unfold RateLimiter.checkDuplicate
  simp only [initTrackers_last_messages, initTrackers_stats, initTrackers_config,
    hlm, hst, hcf, hlast, hwin10]
  constructor
  · intro hwin
    have hcond : decide (True ∧ now - t0 < ((10 : ℕ) : ℚ)) = true := by
      simp only [true_and, decide_eq_true_eq]
      push_cast
      linarith
    rw [hcond]
    have hlook : dictLookup (dictInsert rl.stats "total_requests" (a + 1))
        "spam_detected" = some b := by
      rw [dictLookup_insert_ne _ _ _ _ (by decide)]
      exact hspam
    simp only [dictIncr, hlook, RateLimiter.decisionOf, Except.map, if_true]
  · intro hwin
    have hcond : decide (True ∧ now - t0 < ((10 : ℕ) : ℚ)) = false := by
      simp only [true_and, decide_eq_false_iff_not]
      push_cast
      linarith [not_lt.mp hwin]
    rw [hcond]
    simp only [Bool.false_eq_true, if_false]
    exact reason_ne_dup_of_checkLength _ _ _ _

/-- C9 (witness): the theorem applied to the concrete state in which the
identity `"c:p"` recorded message `"hi"` at time 0, re-sending `"hi"` at
time 5 (inside the window); the first conjunct fires. -/
theorem claim_C9_witness :
    RateLimiter.decisionOf
      (RateLimiter.check_rate_limit
        { RateLimiter.init defaultConfig 0 with
          last_messages := [("c:p", ("hi", 0))] } "p" "c" "hi" 5) =
      Except.ok (false,
        some "Duplicated message detected. Please wait before responding.",
        some 30) :=
  ( claim_C9_theorem _ "p" "c" "hi" 5 0 0 0 rfl
    (by simp [RateLimiter.init, dictLookup, List.find?])
    (by simp [RateLimiter.init, dictLookup, List.find?])
    (by intro u hu; simp [RateLimiter.init, dictLookup, List.find?] at hu)
    (by simp [dictLookup, List.find?, RateLimiter.getUserId,
      RateLimiter.messageHash])).1 (by norm_num)

/-! ## Claim C6 — fixed evaluation order of the admission checks

The specification cascade (§4.3 of the spec) is defined below as
`specOrderedDecision`: every check's condition is computed as a *pure
predicate of the initial state*, the checks are tried in the fixed order
blocked, duplicate, length, burst, token bucket, window thresholds, and the
first failing check determines the outcome.  The window conditions are
phrased with closed-interval event counts (`windowCount`), not with the
code's front-eviction loops. -/

theorem dictLookup_insert_self {α : Type} (d : List (String × α)) (k : String)
    (v : α) : dictLookup (dictInsert d k v) k = some v := by
  induction d with
  | nil => simp [dictInsert, dictLookup, List.find?]
  | cons p rest ih =>
      obtain ⟨pk, pv⟩ := p
      by_cases hpk : pk = k
      · subst hpk
        simp [dictInsert, dictLookup, List.find?]
      · have e1 : (pk == k) = false := beq_eq_false_iff_ne.mpr hpk
        simp only [dictInsert, e1, Bool.false_eq_true, if_false, dictLookup,
          List.find?] at ih ⊢
        exact ih

/-- The recorded-event list of the sliding counter stored at `uid` (empty
when the identity is not tracked yet). -/
def trackerList (d : List (String × SlidingWindowCounter)) (uid : String) :
    List ℚ :=
  match dictLookup d uid with
  | some c => c.request
  | none => []

/-- The number of recorded events (including the incoming one at `now`)
inside the closed window `[now - w, now]`. -/
def windowCount (l : List ℚ) (now w : ℚ) : ℕ :=
  ((l ++ [now]).filter (fun x => decide (now - w ≤ x))).length

/-- The burst queue consulted by the burst check; when the identity is not
tracked yet the code installs a fresh empty queue. -/
def burstListAt (s : RateLimiter) (uid : String) : List ℚ :=
  match dictLookup s.minitue_counters uid with
  | some _ => (dictLookup s.burst_tracker uid).getD []
  | none => []

/-- The token bucket consulted by the token check; fresh identities get a
full bucket created at `now`. -/
def bucketAt (s : RateLimiter) (uid : String) (now : ℚ) : TokenBucket :=
  match dictLookup s.token_bucket uid with
  | some b => b
  | none => TokenBucket.init (s.config.brust_size : ℚ)
      ((s.config.request_per_minitue : ℚ) / 60) now

/-- Spec §4.3 step 2: the incoming content hash equals the recorded one and
the recorded occurrence is less than the duplicate window old. -/
def dupCond (s : RateLimiter) (uid m : String) (now : ℚ) : Bool :=
  match dictLookup s.last_messages uid with
  | some (last_hash, last_time) =>
      decide (last_hash = RateLimiter.messageHash m ∧
        now - last_time < (s.config.duplicate_message_window : ℚ))
  | none => false

/-- Spec §4.3 step 6: the window-threshold cascade over the three
closed-window event counts. -/
def specWindowsD (cfg : RateLimitConfig) (mcount hcount dcount : ℕ) :
    Except PyExc RLDecision :=
  if mcount > cfg.suspicious_requests_per_minitue then
    Except.ok (false, some "Suspicious activity detected. Temporarily blocked.",
      some (cfg.block_durtion : ℤ))
  else if mcount > cfg.request_per_minitue then
    Except.ok (false, some "Too many requests in per minute. Please wait.",
      some 60)
  else if hcount > cfg.request_per_hour then
    Except.ok (false, some "Hourly request limit reached. Please try again later.",
      some 300)
  else if dcount > cfg.request_per_day then
    Except.ok (false, some "Dailty request limit reached. Please try again tommorow.",
      some 3600)
  else
    Except.ok (true, none, none)

/-- Spec §4.3 steps 2–7, as an ordered cascade of pure conditions on the
initial state (step 1, the blocked check, is applied by
`specOrderedDecision`). -/
def specAfterBlocked (s : RateLimiter) (uid m : String) (now : ℚ) :
    Except PyExc RLDecision :=
  let cfg := s.config
  if dupCond s uid m now then
    Except.ok (false,
      some "Duplicated message detected. Please wait before responding.",
      some 30)
  else if m.length > cfg.max_message_lengh then
    Except.ok (false,
      some "Message too long. Please keep it under 2000 character.", none)
  else if windowCount (burstListAt s uid) now (cfg.brust_window : ℚ) >
      cfg.brust_size then
    Except.error (PyExc.keyError "burst_voilations")
  else if (min (bucketAt s uid now).capacity
      ((bucketAt s uid now).tokens +
        (now - (bucketAt s uid now).last_refill) *
          (bucketAt s uid now).refill_rate)) < 1 then
    (if (bucketAt s uid now).refill_rate = 0 then
      Except.error PyExc.zeroDivisionError
    else
      Except.ok (false, some "Rate limit exceeded. Please wait.",
        some (pyInt ((1 - min (bucketAt s uid now).capacity
            ((bucketAt s uid now).tokens +
              (now - (bucketAt s uid now).last_refill) *
                (bucketAt s uid now).refill_rate)) /
          (bucketAt s uid now).refill_rate) + 1)))
  else
    specWindowsD cfg (windowCount (trackerList s.minitue_counters uid) now 60)
      (windowCount (trackerList s.hour_counters uid) now 3600)
      (windowCount (trackerList s.day_counters uid) now 86400)

/-- Spec §4.3: the whole ordered cascade, starting with the blocked check. -/
def specOrderedDecision (s : RateLimiter) (uid m : String) (now : ℚ) :
    Except PyExc RLDecision :=
  match dictLookup s.blocked_users uid with
  | some unblock_time =>
      if now < unblock_time then
        Except.ok (false, some "Temporary block due to suspicious activity",
          some ⌊unblock_time - now⌋)
      else specAfterBlocked s uid m now
  | none => specAfterBlocked s uid m now

/-- The well-formedness facts every state reachable from `RateLimiter.init`
satisfies at query time `now`: the four per-identity tracker dictionaries
are populated in lockstep, stored counters carry their canonical windows
and nondecreasing past timestamps, the three correctly-spelled stats keys
exist, and the misspelled `burst_voilations` key does not. -/
def trackerWF (s : RateLimiter) (uid : String) (now : ℚ) : Prop :=
  ((dictLookup s.hour_counters uid).isSome =
    (dictLookup s.minitue_counters uid).isSome) ∧
  ((dictLookup s.day_counters uid).isSome =
    (dictLookup s.minitue_counters uid).isSome) ∧
  ((dictLookup s.burst_tracker uid).isSome =
    (dictLookup s.minitue_counters uid).isSome) ∧
  (∀ c, dictLookup s.minitue_counters uid = some c →
    c.window_size = 60 ∧ c.request.Sorted (· ≤ ·) ∧ ∀ x ∈ c.request, x ≤ now) ∧
  (∀ c, dictLookup s.hour_counters uid = some c →
    c.window_size = 3600 ∧ c.request.Sorted (· ≤ ·) ∧ ∀ x ∈ c.request, x ≤ now) ∧
  (∀ c, dictLookup s.day_counters uid = some c →
    c.window_size = 86400 ∧ c.request.Sorted (· ≤ ·) ∧ ∀ x ∈ c.request, x ≤ now) ∧
  (∀ l, dictLookup s.burst_tracker uid = some l →
    l.Sorted (· ≤ ·) ∧ ∀ x ∈ l, x ≤ now) ∧
  (∃ n, dictLookup s.stats "total_requests" = some n) ∧
  (∃ n, dictLookup s.stats "spam_detected" = some n) ∧
  (∃ n, dictLookup s.stats "blocked_requests" = some n) ∧
  dictLookup s.stats "burst_voilations" = none

theorem count_add_get (c : SlidingWindowCounter) (now : ℚ)
    (hs : c.request.Sorted (· ≤ ·)) (hb : ∀ x ∈ c.request, x ≤ now) :
    ((c.add_request now).get_count now).1 =
      windowCount c.request now c.window_size := by
  have happ : (c.request ++ [now]).Sorted (· ≤ ·) := by
    apply List.pairwise_append.mpr
    refine ⟨hs, List.pairwise_singleton _ _, fun x hx y hy => ?_⟩
    simp only [List.mem_singleton] at hy
    subst hy
    exact hb x hx
  have hbb : ∀ x ∈ c.request ++ [now], x ≤ now := by
    intro x hx
    rcases List.mem_append.mp hx with h | h
    · exact hb x h
    · simp only [List.mem_singleton] at h
      subst h
      exact le_rfl
  exact SlidingWindowCounter.count_applyAdds c.window_size [now] c.request now
    happ hbb

theorem initTrackers_token_bucket (rl : RateLimiter) (uid : String) (now : ℚ) :
    (RateLimiter.initTrackers rl uid now).token_bucket =
      (if (dictLookup rl.token_bucket uid).isNone then
        dictInsert rl.token_bucket uid
          (TokenBucket.init (rl.config.brust_size : ℚ)
            ((rl.config.request_per_minitue : ℚ) / 60) now)
      else rl.token_bucket) := by
  unfold RateLimiter.initTrackers
  simp only []
  repeat' split
  all_goals rfl

theorem initTrackers_minitue (rl : RateLimiter) (uid : String) (now : ℚ) :
    (RateLimiter.initTrackers rl uid now).minitue_counters =
      (if (dictLookup rl.minitue_counters uid).isNone then
        dictInsert rl.minitue_counters uid (SlidingWindowCounter.init 60)
      else rl.minitue_counters) := by
  unfold RateLimiter.initTrackers
  simp only []
  repeat' split
  all_goals rfl

theorem initTrackers_hour (rl : RateLimiter) (uid : String) (now : ℚ) :
    (RateLimiter.initTrackers rl uid now).hour_counters =
      (if (dictLookup rl.minitue_counters uid).isNone then
        dictInsert rl.hour_counters uid (SlidingWindowCounter.init 3600)
      else rl.hour_counters) := by
  unfold RateLimiter.initTrackers
  simp only []
  repeat' split
  all_goals rfl

theorem initTrackers_day (rl : RateLimiter) (uid : String) (now : ℚ) :
    (RateLimiter.initTrackers rl uid now).day_counters =
      (if (dictLookup rl.minitue_counters uid).isNone then
        dictInsert rl.day_counters uid (SlidingWindowCounter.init 86400)
      else rl.day_counters) := by
  unfold RateLimiter.initTrackers
  simp only []
  repeat' split
  all_goals rfl

theorem initTrackers_burst (rl : RateLimiter) (uid : String) (now : ℚ) :
    (RateLimiter.initTrackers rl uid now).burst_tracker =
      (if (dictLookup rl.minitue_counters uid).isNone then
        dictInsert rl.burst_tracker uid []
      else rl.burst_tracker) := by
  unfold RateLimiter.initTrackers
  simp only []
  repeat' split
  all_goals rfl

theorem initTrackers_blocked_users (rl : RateLimiter) (uid : String) (now : ℚ) :
    (RateLimiter.initTrackers rl uid now).blocked_users = rl.blocked_users := by
  unfold RateLimiter.initTrackers
  simp only []
  repeat' split
  all_goals rfl

theorem initTrackers_last_cleanup (rl : RateLimiter) (uid : String) (now : ℚ) :
    (RateLimiter.initTrackers rl uid now).last_cleanup = rl.last_cleanup := by
  unfold RateLimiter.initTrackers
  simp only []
  repeat' split
  all_goals rfl

theorem checkWindows_spec (st : RateLimiter) (uid : String) (now : ℚ)
    (mc hc dc : SlidingWindowCounter)
    (hmc : dictLookup st.minitue_counters uid = some mc)
    (hhc : dictLookup st.hour_counters uid = some hc)
    (hdc : dictLookup st.day_counters uid = some dc)
    (hmw : mc.window_size = 60) (hms : mc.request.Sorted (· ≤ ·))
    (hmb : ∀ x ∈ mc.request, x ≤ now)
    (hhw : hc.window_size = 3600) (hhs : hc.request.Sorted (· ≤ ·))
    (hhb : ∀ x ∈ hc.request, x ≤ now)
    (hdw : dc.window_size = 86400) (hds : dc.request.Sorted (· ≤ ·))
    (hdb : ∀ x ∈ dc.request, x ≤ now)
    (hbr : ∃ n, dictLookup st.stats "blocked_requests" = some n) :
    RateLimiter.decisionOf (RateLimiter.checkWindows st uid now) =
      specWindowsD st.config (windowCount mc.request now 60)
        (windowCount hc.request now 3600)
        (windowCount dc.request now 86400) := by
  obtain ⟨nbr, hbr⟩ := hbr
  have e1 := count_add_get mc now hms hmb
  have e2 := count_add_get hc now hhs hhb
  have e3 := count_add_get dc now hds hdb
  rw [hmw] at e1
  rw [hhw] at e2
  rw [hdw] at e3
  unfold RateLimiter.checkWindows
  simp only [dictGet, hmc, hhc, hdc, e1, e2, e3, dictIncr, hbr, specWindowsD]
  repeat' split
  all_goals simp_all [RateLimiter.decisionOf, Except.map]

theorem sorted_append_now (l : List ℚ) (now : ℚ) (hs : l.Sorted (· ≤ ·))
    (hb : ∀ x ∈ l, x ≤ now) : (l ++ [now]).Sorted (· ≤ ·) := by
  apply List.pairwise_append.mpr
  refine ⟨hs, List.pairwise_singleton _ _, fun x hx y hy => ?_⟩
  simp only [List.mem_singleton] at hy
  subst hy
  exact hb x hx

theorem checkToken_spec (st : RateLimiter) (uid : String) (now : ℚ)
    (b : TokenBucket) (mc hc dc : SlidingWindowCounter)
    (htb : dictLookup st.token_bucket uid = some b)
    (hmc : dictLookup st.minitue_counters uid = some mc)
    (hhc : dictLookup st.hour_counters uid = some hc)
    (hdc : dictLookup st.day_counters uid = some dc)
    (hmw : mc.window_size = 60) (hms : mc.request.Sorted (· ≤ ·))
    (hmb : ∀ x ∈ mc.request, x ≤ now)
    (hhw : hc.window_size = 3600) (hhs : hc.request.Sorted (· ≤ ·))
    (hhb : ∀ x ∈ hc.request, x ≤ now)
    (hdw : dc.window_size = 86400) (hds : dc.request.Sorted (· ≤ ·))
    (hdb : ∀ x ∈ dc.request, x ≤ now)
    (hbr : ∃ n, dictLookup st.stats "blocked_requests" = some n) :
    RateLimiter.decisionOf (RateLimiter.checkToken st uid now) =
      (if min b.capacity (b.tokens + (now - b.last_refill) * b.refill_rate) < 1 then
        (if b.refill_rate = 0 then
          Except.error PyExc.zeroDivisionError
        else
          Except.ok (false, some "Rate limit exceeded. Please wait.",
            some (pyInt ((1 - min b.capacity
                (b.tokens + (now - b.last_refill) * b.refill_rate)) /
              b.refill_rate) + 1)))
      else
        specWindowsD st.config (windowCount mc.request now 60)
          (windowCount hc.request now 3600)
          (windowCount dc.request now 86400)) := by
  unfold RateLimiter.checkToken
  simp only [dictGet, htb]
  by_cases hcons : (1 : ℚ) ≤
      min b.capacity (b.tokens + (now - b.last_refill) * b.refill_rate)
  · have hnlt : ¬ min b.capacity
        (b.tokens + (now - b.last_refill) * b.refill_rate) < 1 :=
      not_lt.mpr hcons
    simp only [TokenBucket.consume, hcons, if_true, hnlt, if_false,
      Bool.true_eq_false]
    exact checkWindows_spec _ uid now mc hc dc (by exact hmc) (by exact hhc)
      (by exact hdc) hmw hms hmb hhw hhs hhb hdw hds hdb (by exact hbr)
  · have hlt : min b.capacity
        (b.tokens + (now - b.last_refill) * b.refill_rate) < 1 :=
      not_le.mp hcons
    simp only [TokenBucket.consume, hcons, if_false, TokenBucket.get_wait_time,
      hlt, if_true]
    by_cases hz : b.refill_rate = 0
    · rw [if_pos hz, if_pos hz]
      simp only [RateLimiter.decisionOf, Except.map]
    · rw [if_neg hz, if_neg hz]
      simp only [RateLimiter.decisionOf, Except.map]

theorem checkBurst_spec (st : RateLimiter) (uid : String) (now : ℚ)
    (bl : List ℚ) (b : TokenBucket) (mc hc dc : SlidingWindowCounter)
    (hbl : dictLookup st.burst_tracker uid = some bl)
    (hbs : bl.Sorted (· ≤ ·)) (hbb : ∀ x ∈ bl, x ≤ now)
    (htypo : dictLookup st.stats "burst_voilations" = none)
    (htb : dictLookup st.token_bucket uid = some b)
    (hmc : dictLookup st.minitue_counters uid = some mc)
    (hhc : dictLookup st.hour_counters uid = some hc)
    (hdc : dictLookup st.day_counters uid = some dc)
    (hmw : mc.window_size = 60) (hms : mc.request.Sorted (· ≤ ·))
    (hmb : ∀ x ∈ mc.request, x ≤ now)
    (hhw : hc.window_size = 3600) (hhs : hc.request.Sorted (· ≤ ·))
    (hhb : ∀ x ∈ hc.request, x ≤ now)
    (hdw : dc.window_size = 86400) (hds : dc.request.Sorted (· ≤ ·))
    (hdb : ∀ x ∈ dc.request, x ≤ now)
    (hbr : ∃ n, dictLookup st.stats "blocked_requests" = some n) :
    RateLimiter.decisionOf (RateLimiter.checkBurst st uid now) =
      (if windowCount bl now (st.config.brust_window : ℚ) >
          st.config.brust_size then
        Except.error (PyExc.keyError "burst_voilations")
      else if min b.capacity
          (b.tokens + (now - b.last_refill) * b.refill_rate) < 1 then
        (if b.refill_rate = 0 then
          Except.error PyExc.zeroDivisionError
        else
          Except.ok (false, some "Rate limit exceeded. Please wait.",
            some (pyInt ((1 - min b.capacity
                (b.tokens + (now - b.last_refill) * b.refill_rate)) /
              b.refill_rate) + 1)))
      else
        specWindowsD st.config (windowCount mc.request now 60)
          (windowCount hc.request now 3600)
          (windowCount dc.request now 86400)) := by
  unfold RateLimiter.checkBurst
  simp only [dictGet, hbl]
  have hdw2 : (bl ++ [now]).dropWhile
      (fun x => decide (x < now - (st.config.brust_window : ℚ))) =
      (bl ++ [now]).filter
        (fun x => decide (now - (st.config.brust_window : ℚ) ≤ x)) :=
    dropWhile_lt_eq_filter _ _ (sorted_append_now bl now hbs hbb)
  simp only [hdw2]
  by_cases hbc : windowCount bl now (st.config.brust_window : ℚ) >
      st.config.brust_size
  · have : ((bl ++ [now]).filter
        (fun x => decide (now - (st.config.brust_window : ℚ) ≤ x))).length >
        st.config.brust_size := hbc
    simp only [this, if_true, dictIncr, htypo, RateLimiter.decisionOf,
      Except.map, hbc]
  · have : ¬ ((bl ++ [now]).filter
        (fun x => decide (now - (st.config.brust_window : ℚ) ≤ x))).length >
        st.config.brust_size := hbc
    simp only [this, if_false, hbc]
    exact checkToken_spec _ uid now b mc hc dc (by exact htb) (by exact hmc)
      (by exact hhc) (by exact hdc) hmw hms hmb hhw hhs hhb hdw hds hdb
      (by exact hbr)

theorem checkDuplicate_spec (st : RateLimiter) (uid m : String) (now : ℚ)
    (bl : List ℚ) (b : TokenBucket) (mc hc dc : SlidingWindowCounter)
    (hbl : dictLookup st.burst_tracker uid = some bl)
    (hbs : bl.Sorted (· ≤ ·)) (hbb : ∀ x ∈ bl, x ≤ now)
    (htypo : dictLookup st.stats "burst_voilations" = none)
    (htb : dictLookup st.token_bucket uid = some b)
    (hmc : dictLookup st.minitue_counters uid = some mc)
    (hhc : dictLookup st.hour_counters uid = some hc)
    (hdc : dictLookup st.day_counters uid = some dc)
    (hmw : mc.window_size = 60) (hms : mc.request.Sorted (· ≤ ·))
    (hmb : ∀ x ∈ mc.request, x ≤ now)
    (hhw : hc.window_size = 3600) (hhs : hc.request.Sorted (· ≤ ·))
    (hhb : ∀ x ∈ hc.request, x ≤ now)
    (hdw : dc.window_size = 86400) (hds : dc.request.Sorted (· ≤ ·))
    (hdb : ∀ x ∈ dc.request, x ≤ now)
    (hbr : ∃ n, dictLookup st.stats "blocked_requests" = some n)
    (hsp : ∃ n, dictLookup st.stats "spam_detected" = some n) :
    RateLimiter.decisionOf (RateLimiter.checkDuplicate st uid m now) =
      specAfterBlocked st uid m now := by
  obtain ⟨nsp, hsp⟩ := hsp
  have hba : burstListAt st uid = bl := by
    unfold burstListAt
    rw [hmc, hbl]
    rfl
  have hbu : bucketAt st uid now = b := by
    unfold bucketAt
    rw [htb]
  have htl : trackerList st.minitue_counters uid = mc.request := by
    unfold trackerList
    rw [hmc]
  have htl2 : trackerList st.hour_counters uid = hc.request := by
    unfold trackerList
    rw [hhc]
  have htl3 : trackerList st.day_counters uid = dc.request := by
    unfold trackerList
    rw [hdc]
  unfold RateLimiter.checkDuplicate specAfterBlocked
  simp only [hba, hbu, htl, htl2, htl3]
  by_cases hdup : (match dictLookup st.last_messages uid with
    | some (last_hash, last_time) =>
        decide (last_hash = RateLimiter.messageHash m ∧
          now - last_time < (st.config.duplicate_message_window : ℚ))
    | none => false) = true
  · simp only [dupCond, hdup, if_true, dictIncr, hsp, RateLimiter.decisionOf,
      Except.map]
  · simp only [dupCond, hdup, if_false, Bool.false_eq_true]
    unfold RateLimiter.checkLength
    by_cases hlen : m.length > st.config.max_message_lengh
    · simp only [hlen, if_true, RateLimiter.decisionOf, Except.map]
    · simp only [hlen, if_false]
      rw [checkBurst_spec _ uid now bl b mc hc dc (by exact hbl) hbs hbb
        (by exact htypo) (by exact htb) (by exact hmc) (by exact hhc)
        (by exact hdc) hmw hms hmb hhw hhs hhb hdw hds hdb (by exact hbr)]

theorem bucketAt_initTrackers (s : RateLimiter) (uid : String) (now : ℚ) :
    bucketAt (RateLimiter.initTrackers s uid now) uid now = bucketAt s uid now := by
  unfold bucketAt
  rw [initTrackers_token_bucket, initTrackers_config]
  cases htk : dictLookup s.token_bucket uid with
  | some b => simp [htk]
  | none => simp [htk, dictLookup_insert_self]

theorem specAfterBlocked_initTrackers (s : RateLimiter) (uid m : String)
    (now : ℚ)
    (hhiff : (dictLookup s.hour_counters uid).isSome =
      (dictLookup s.minitue_counters uid).isSome)
    (hdiff : (dictLookup s.day_counters uid).isSome =
      (dictLookup s.minitue_counters uid).isSome) :
    specAfterBlocked (RateLimiter.initTrackers s uid now) uid m now =
      specAfterBlocked s uid m now := by
  have hcfg := initTrackers_config s uid now
  have hlm := initTrackers_last_messages s uid now
  have hbk := bucketAt_initTrackers s uid now
  cases hm : dictLookup s.minitue_counters uid with
  | none =>
      have hh : dictLookup s.hour_counters uid = none := by
        cases hx : dictLookup s.hour_counters uid with
        | none => rfl
        | some c => rw [hx, hm] at hhiff; simp at hhiff
      have hd : dictLookup s.day_counters uid = none := by
        cases hx : dictLookup s.day_counters uid with
        | none => rfl
        | some c => rw [hx, hm] at hdiff; simp at hdiff
      unfold specAfterBlocked dupCond burstListAt trackerList
      rw [hcfg, hlm, hbk, initTrackers_minitue, initTrackers_hour,
        initTrackers_day, initTrackers_burst]
      simp [hm, hh, hd, dictLookup_insert_self, SlidingWindowCounter.init]
  | some mc =>
      have hnm : (dictLookup s.minitue_counters uid).isNone = false := by
        rw [hm]; rfl
      unfold specAfterBlocked dupCond burstListAt trackerList
      rw [hcfg, hlm, hbk, initTrackers_minitue, initTrackers_hour,
        initTrackers_day, initTrackers_burst]
      simp [hnm]

theorem specAfterBlocked_congr (s s0 : RateLimiter) (uid m : String) (now : ℚ)
    (hconf : s.config = s0.config) (hlm : s.last_messages = s0.last_messages)
    (htk : s.token_bucket = s0.token_bucket)
    (hmn : s.minitue_counters = s0.minitue_counters)
    (hhr : s.hour_counters = s0.hour_counters)
    (hdy : s.day_counters = s0.day_counters)
    (hbt : s.burst_tracker = s0.burst_tracker) :
    specAfterBlocked s uid m now = specAfterBlocked s0 uid m now := by
  unfold specAfterBlocked dupCond burstListAt bucketAt trackerList
  rw [hconf, hlm, htk, hmn, hhr, hdy, hbt]

theorem initTrackers_token_lookup (s : RateLimiter) (uid : String) (now : ℚ) :
    dictLookup (RateLimiter.initTrackers s uid now).token_bucket uid =
      some (bucketAt s uid now) := by
  rw [initTrackers_token_bucket]
  unfold bucketAt
  cases htk : dictLookup s.token_bucket uid with
  | some b => simp [htk]
  | none => simp [htk, dictLookup_insert_self]

theorem checkDuplicate_after_init (rlA rl : RateLimiter) (uid m : String)
    (now : ℚ)
    (hconf : rlA.config = rl.config) (hlm : rlA.last_messages = rl.last_messages)
    (htk : rlA.token_bucket = rl.token_bucket)
    (hmn : rlA.minitue_counters = rl.minitue_counters)
    (hhr : rlA.hour_counters = rl.hour_counters)
    (hdy : rlA.day_counters = rl.day_counters)
    (hbt : rlA.burst_tracker = rl.burst_tracker)
    (hsp : ∃ n, dictLookup rlA.stats "spam_detected" = some n)
    (hbr : ∃ n, dictLookup rlA.stats "blocked_requests" = some n)
    (htypo : dictLookup rlA.stats "burst_voilations" = none)
    (hhiff : (dictLookup rl.hour_counters uid).isSome =
      (dictLookup rl.minitue_counters uid).isSome)
    (hdiff : (dictLookup rl.day_counters uid).isSome =
      (dictLookup rl.minitue_counters uid).isSome)
    (hbiff : (dictLookup rl.burst_tracker uid).isSome =
      (dictLookup rl.minitue_counters uid).isSome)
    (hmprop : ∀ c, dictLookup rl.minitue_counters uid = some c →
      c.window_size = 60 ∧ c.request.Sorted (· ≤ ·) ∧ ∀ x ∈ c.request, x ≤ now)
    (hhprop : ∀ c, dictLookup rl.hour_counters uid = some c →
      c.window_size = 3600 ∧ c.request.Sorted (· ≤ ·) ∧ ∀ x ∈ c.request, x ≤ now)
    (hdprop : ∀ c, dictLookup rl.day_counters uid = some c →
      c.window_size = 86400 ∧ c.request.Sorted (· ≤ ·) ∧ ∀ x ∈ c.request, x ≤ now)
    (hbprop : ∀ l, dictLookup rl.burst_tracker uid = some l →
      l.Sorted (· ≤ ·) ∧ ∀ x ∈ l, x ≤ now) :
    RateLimiter.decisionOf
      (RateLimiter.checkDuplicate (RateLimiter.initTrackers rlA uid now)
        uid m now) =
      specAfterBlocked rl uid m now := by
  have hbridge : specAfterBlocked (RateLimiter.initTrackers rlA uid now)
      uid m now = specAfterBlocked rl uid m now := by
    rw [specAfterBlocked_initTrackers rlA uid m now
      (by rw [hhr, hmn]; exact hhiff) (by rw [hdy, hmn]; exact hdiff)]
    exact specAfterBlocked_congr rlA rl uid m now hconf hlm htk hmn hhr hdy hbt
  have hstats := initTrackers_stats rlA uid now
  have hbk : bucketAt rlA uid now = bucketAt rl uid now := by
    unfold bucketAt
    rw [htk, hconf]
  cases hm : dictLookup rl.minitue_counters uid with
  | none =>
      have hm' : (dictLookup rlA.minitue_counters uid).isNone = true := by
        rw [hmn, hm]; rfl
      have l1 : dictLookup (RateLimiter.initTrackers rlA uid now).minitue_counters
          uid = some (SlidingWindowCounter.init 60) := by
        rw [initTrackers_minitue, if_pos hm', dictLookup_insert_self]
      have l2 : dictLookup (RateLimiter.initTrackers rlA uid now).hour_counters
          uid = some (SlidingWindowCounter.init 3600) := by
        rw [initTrackers_hour, if_pos hm', dictLookup_insert_self]
      have l3 : dictLookup (RateLimiter.initTrackers rlA uid now).day_counters
          uid = some (SlidingWindowCounter.init 86400) := by
        rw [initTrackers_day, if_pos hm', dictLookup_insert_self]
      have l4 : dictLookup (RateLimiter.initTrackers rlA uid now).burst_tracker
          uid = some [] := by
        rw [initTrackers_burst, if_pos hm', dictLookup_insert_self]
      rw [checkDuplicate_spec _ uid m now [] (bucketAt rl uid now)
        (SlidingWindowCounter.init 60) (SlidingWindowCounter.init 3600)
        (SlidingWindowCounter.init 86400) l4 (List.sorted_nil) (by simp)
        (by rw [hstats]; exact htypo)
        (by rw [initTrackers_token_lookup, hbk]) l1 l2 l3 rfl
        (List.sorted_nil) (by simp [SlidingWindowCounter.init]) rfl
        (List.sorted_nil) (by simp [SlidingWindowCounter.init]) rfl
        (List.sorted_nil) (by simp [SlidingWindowCounter.init])
        (by rw [hstats]; exact hbr)
        (by rw [hstats]; exact hsp)]
      exact hbridge
  | some mc =>
      have hm' : (dictLookup rlA.minitue_counters uid).isNone = false := by
        rw [hmn, hm]; rfl
      obtain ⟨hc, hhc⟩ : ∃ c, dictLookup rl.hour_counters uid = some c := by
        cases hx : dictLookup rl.hour_counters uid with
        | some c => exact ⟨c, rfl⟩
        | none => rw [hx, hm] at hhiff; simp at hhiff
      obtain ⟨dc, hdc⟩ : ∃ c, dictLookup rl.day_counters uid = some c := by
        cases hx : dictLookup rl.day_counters uid with
        | some c => exact ⟨c, rfl⟩
        | none => rw [hx, hm] at hdiff; simp at hdiff
      obtain ⟨bl, hblk⟩ : ∃ l, dictLookup rl.burst_tracker uid = some l := by
        cases hx : dictLookup rl.burst_tracker uid with
        | some l => exact ⟨l, rfl⟩
        | none => rw [hx, hm] at hbiff; simp at hbiff
      obtain ⟨hw1, hs1, hb1⟩ := hmprop mc hm
      obtain ⟨hw2, hs2, hb2⟩ := hhprop hc hhc
      obtain ⟨hw3, hs3, hb3⟩ := hdprop dc hdc
      obtain ⟨hs4, hb4⟩ := hbprop bl hblk
      have l1 : dictLookup (RateLimiter.initTrackers rlA uid now).minitue_counters
          uid = some mc := by
        rw [initTrackers_minitue, if_neg (by simp [hm']), hmn]
        exact hm
      have l2 : dictLookup (RateLimiter.initTrackers rlA uid now).hour_counters
          uid = some hc := by
        rw [initTrackers_hour, if_neg (by simp [hm']), hhr]
        exact hhc
      have l3 : dictLookup (RateLimiter.initTrackers rlA uid now).day_counters
          uid = some dc := by
        rw [initTrackers_day, if_neg (by simp [hm']), hdy]
        exact hdc
      have l4 : dictLookup (RateLimiter.initTrackers rlA uid now).burst_tracker
          uid = some bl := by
        rw [initTrackers_burst, if_neg (by simp [hm']), hbt]
        exact hblk
      rw [checkDuplicate_spec _ uid m now bl (bucketAt rl uid now) mc hc dc
        l4 hs4 hb4 (by rw [hstats]; exact htypo)
        (by rw [initTrackers_token_lookup, hbk]) l1 l2 l3 hw1 hs1 hb1
        hw2 hs2 hb2 hw3 hs3 hb3 (by rw [hstats]; exact hbr)
        (by rw [hstats]; exact hsp)]
      exact hbridge

theorem initTrackers_id (rl : RateLimiter) (uid : String) (now : ℚ)
    (h1 : (dictLookup rl.token_bucket uid).isSome = true)
    (h2 : (dictLookup rl.minitue_counters uid).isSome = true) :
    RateLimiter.initTrackers rl uid now = rl := by
  have e1 : (dictLookup rl.token_bucket uid).isNone = false := by
    cases hx : dictLookup rl.token_bucket uid with
    | some b => rfl
    | none => rw [hx] at h1; simp at h1
  have e2 : (dictLookup rl.minitue_counters uid).isNone = false := by
    cases hx : dictLookup rl.minitue_counters uid with
    | some c => rfl
    | none => rw [hx] at h2; simp at h2
  unfold RateLimiter.initTrackers
  simp only [e1, e2, Bool.false_eq_true, if_false]

/-- C6 (counterexample): the claim says the first failing check produces
the rejection — a triple — but when the burst check is the first failing
one the call raises `KeyError` (the misspelled stats key) instead: with
burst capacity 0, the very first message from a fresh sender fails the
burst check and the call raises; the message is neither rejected with a
triple nor does it pass all checks. -/
theorem claim_C6_counterexample :
    RateLimiter.check_rate_limit (RateLimiter.init { brust_size := 0 } 0)
      "p" "c" "x" 0 =
      Except.error (PyExc.keyError "burst_voilations") := by
  norm_num [RateLimiter.check_rate_limit, RateLimiter.checkBlocked,
    RateLimiter.initTrackers, RateLimiter.checkDuplicate, RateLimiter.checkLength,
    RateLimiter.checkBurst, RateLimiter.checkToken, RateLimiter.checkWindows,
    RateLimiter.init, RateLimiter.getUserId, RateLimiter.messageHash, dictIncr,
    dictLookup, dictInsert, dictErase, dictGet, TokenBucket.init,
    TokenBucket.consume, SlidingWindowCounter.init,
    SlidingWindowCounter.add_request, SlidingWindowCounter.get_count,
    SlidingWindowCounter.cleanup, List.dropWhile, List.find?,
    RateLimiter.cleanupOldData,
    show ("x" : String).length = 1 from rfl,
    show (("total_requests" : String) == "burst_voilations") = false from by simp,
    show (("blocked_requests" : String) == "burst_voilations") = false from by simp,
    show (("spam_detected" : String) == "burst_voilations") = false from by simp,
    show (("burst_violations" : String) == "burst_voilations") = false from by simp,
    show ("c" ++ ":" ++ "p" : String) = "c:p" from rfl]

/-- C6 (amended): on every well-formed state the admission checks are
evaluated in the fixed order blocked, duplicate, length, burst, token
bucket, window thresholds, and the outcome is that of the *first failing
check*, each condition being a pure predicate of the initial state
(`specOrderedDecision`) — with the amendment that two of the rejection
paths raise instead of returning a triple: the burst-capacity rejection
raises `KeyError` (stats-key typo), and the token-bucket rejection raises
`ZeroDivisionError` whenever the bucket's refill rate is zero
(configuration `request_per_minitue = 0`), because `get_wait_time` divides
by the refill rate unguarded.
In addition, a rejection consumes no later check's state: a blocked
rejection leaves everything but the stats untouched; a duplicate or
length rejection leaves the burst queue, the token bucket and the three
window counters untouched; a token rejection leaves the three window
counters untouched. -/
theorem claim_C6_amended (rl : RateLimiter) (ph cl m : String) (now : ℚ)
    (hwf : trackerWF rl (RateLimiter.getUserId ph cl) now) :
    RateLimiter.decisionOf (rl.check_rate_limit ph cl m now) =
      specOrderedDecision rl (RateLimiter.getUserId ph cl) m now ∧
    (∀ r : RLDecision × RateLimiter,
      rl.check_rate_limit ph cl m now = Except.ok r →
      (r.1.2.1 = some "Temporary block due to suspicious activity" →
        r.2.token_bucket = rl.token_bucket ∧
        r.2.minitue_counters = rl.minitue_counters ∧
        r.2.hour_counters = rl.hour_counters ∧
        r.2.day_counters = rl.day_counters ∧
        r.2.burst_tracker = rl.burst_tracker ∧
        r.2.last_messages = rl.last_messages ∧
        r.2.blocked_users = rl.blocked_users) ∧
      ((r.1.2.1 = some "Duplicated message detected. Please wait before responding." ∨
        r.1.2.1 = some "Message too long. Please keep it under 2000 character.") →
        (dictLookup rl.token_bucket (RateLimiter.getUserId ph cl)).isSome = true →
        (dictLookup rl.minitue_counters (RateLimiter.getUserId ph cl)).isSome = true →
        r.2.token_bucket = rl.token_bucket ∧
        r.2.burst_tracker = rl.burst_tracker ∧
        r.2.minitue_counters = rl.minitue_counters ∧
        r.2.hour_counters = rl.hour_counters ∧
        r.2.day_counters = rl.day_counters) ∧
      (r.1.2.1 = some "Rate limit exceeded. Please wait." →
        (dictLookup rl.token_bucket (RateLimiter.getUserId ph cl)).isSome = true →
        (dictLookup rl.minitue_counters (RateLimiter.getUserId ph cl)).isSome = true →
        r.2.minitue_counters = rl.minitue_counters ∧
        r.2.hour_counters = rl.hour_counters ∧
        r.2.day_counters = rl.day_counters)) := by
  obtain ⟨hhiff, hdiff, hbiff, hmprop, hhprop, hdprop, hbprop,
    ⟨nt, htot⟩, hsp, hbr, htypo⟩ := hwf
  have hsp' : ∃ n, dictLookup (dictInsert rl.stats "total_requests" (nt + 1))
      "spam_detected" = some n := by
    rw [dictLookup_insert_ne _ _ _ _ (by decide)]
    exact hsp
  have hbr' : ∃ n, dictLookup (dictInsert rl.stats "total_requests" (nt + 1))
      "blocked_requests" = some n := by
    rw [dictLookup_insert_ne _ _ _ _ (by decide)]
    exact hbr
  have htypo' : dictLookup (dictInsert rl.stats "total_requests" (nt + 1))
      "burst_voilations" = none := by
    rw [dictLookup_insert_ne _ _ _ _ (by decide)]
    exact htypo
  constructor
  · unfold RateLimiter.check_rate_limit
    simp only [dictIncr, htot]
    unfold RateLimiter.checkBlocked specOrderedDecision
    simp only []
    cases hbu : dictLookup rl.blocked_users (RateLimiter.getUserId ph cl) with
    | some u =>
        by_cases hlt : now < u
        · simp [hbu, hlt, RateLimiter.decisionOf, Except.map]
        · simp only [hbu, hlt, if_false]
          exact checkDuplicate_after_init _ rl _ m now rfl rfl rfl rfl rfl rfl
            rfl hsp' hbr' htypo' hhiff hdiff hbiff hmprop hhprop hdprop hbprop
    | none =>
        simp only [hbu]
        exact checkDuplicate_after_init _ rl _ m now rfl rfl rfl rfl rfl rfl
          rfl hsp' hbr' htypo' hhiff hdiff hbiff hmprop hhprop hdprop hbprop
  · intro r hres
    unfold RateLimiter.check_rate_limit at hres
    simp only [dictIncr, htot] at hres
    unfold RateLimiter.checkBlocked at hres
    simp only [] at hres
    refine ⟨?_, ?_, ?_⟩
    · intro hreason
      cases hbu : dictLookup rl.blocked_users (RateLimiter.getUserId ph cl) with
      | some u =>
          rw [hbu] at hres
          simp only [] at hres
          by_cases hlt : now < u
          · rw [if_pos hlt] at hres
            injection hres with h2
            subst h2
            exact ⟨rfl, rfl, rfl, rfl, rfl, rfl, rfl⟩
          · rw [if_neg hlt] at hres
            have hmem : reasonProj (Except.ok r) ∈ dupReasons := by
              rw [← hres]
              exact checkDuplicate_reasons _ _ _ _
            simp only [reasonProj] at hmem
            rw [hreason] at hmem
            exact absurd hmem (by decide)
      | none =>
          rw [hbu] at hres
          simp only [] at hres
          have hmem : reasonProj (Except.ok r) ∈ dupReasons := by
            rw [← hres]
            exact checkDuplicate_reasons _ _ _ _
          simp only [reasonProj] at hmem
          rw [hreason] at hmem
          exact absurd hmem (by decide)
    · intro hdl hp1 hp2
      cases hbu : dictLookup rl.blocked_users (RateLimiter.getUserId ph cl) with
      | some u =>
          rw [hbu] at hres
          simp only [] at hres
          by_cases hlt : now < u
          · rw [if_pos hlt] at hres
            injection hres with h2
            subst h2
            rcases hdl with h | h <;> simp at h
          · rw [if_neg hlt] at hres
            rw [initTrackers_id _ _ now (by exact hp1) (by exact hp2)] at hres
            unfold RateLimiter.checkDuplicate RateLimiter.checkLength at hres
            simp only [] at hres
            repeat' split at hres
            all_goals
              first
                | exact Except.noConfusion hres
                | (injection hres with h2; subst h2;
                   exact ⟨rfl, rfl, rfl, rfl, rfl⟩)
                | (injection hres with h2; subst h2;
                   rcases hdl with h | h <;> simp at h)
                | (have hmem : reasonProj (Except.ok r) ∈ burstReasons := by
                     rw [← hres]
                     exact checkBurst_reasons _ _ _
                   simp only [reasonProj] at hmem
                   rcases hdl with h | h <;> rw [h] at hmem <;>
                     exact absurd hmem (by decide))
      | none =>
          rw [hbu] at hres
          simp only [] at hres
          rw [initTrackers_id _ _ now (by exact hp1) (by exact hp2)] at hres
          unfold RateLimiter.checkDuplicate RateLimiter.checkLength at hres
          simp only [] at hres
          repeat' split at hres
          all_goals
            first
              | exact Except.noConfusion hres
              | (injection hres with h2; subst h2;
                 exact ⟨rfl, rfl, rfl, rfl, rfl⟩)
              | (injection hres with h2; subst h2;
                 rcases hdl with h | h <;> simp at h)
              | (have hmem : reasonProj (Except.ok r) ∈ burstReasons := by
                   rw [← hres]
                   exact checkBurst_reasons _ _ _
                 simp only [reasonProj] at hmem
                 rcases hdl with h | h <;> rw [h] at hmem <;>
                   exact absurd hmem (by decide))
    · intro hrate hp1 hp2
      cases hbu : dictLookup rl.blocked_users (RateLimiter.getUserId ph cl) with
      | some u =>
          rw [hbu] at hres
          simp only [] at hres
          by_cases hlt : now < u
          · rw [if_pos hlt] at hres
            injection hres with h2
            subst h2
            simp at hrate
          · rw [if_neg hlt] at hres
            rw [initTrackers_id _ _ now (by exact hp1) (by exact hp2)] at hres
            unfold RateLimiter.checkDuplicate RateLimiter.checkLength
              RateLimiter.checkBurst RateLimiter.checkToken at hres
            simp only [] at hres
            repeat' split at hres
            all_goals
              first
                | exact Except.noConfusion hres
                | (injection hres with h2; subst h2; exact ⟨rfl, rfl, rfl⟩)
                | (injection hres with h2; subst h2; simp at hrate)
                | (have hmem : reasonProj (Except.ok r) ∈ windowsReasons := by
                     rw [← hres]
                     exact checkWindows_reasons _ _ _
                   simp only [reasonProj] at hmem
                   rw [hrate] at hmem
                   exact absurd hmem (by decide))
      | none =>
          rw [hbu] at hres
          simp only [] at hres
          rw [initTrackers_id _ _ now (by exact hp1) (by exact hp2)] at hres
          unfold RateLimiter.checkDuplicate RateLimiter.checkLength
            RateLimiter.checkBurst RateLimiter.checkToken at hres
          simp only [] at hres
          repeat' split at hres
          all_goals
            first
              | exact Except.noConfusion hres
              | (injection hres with h2; subst h2; exact ⟨rfl, rfl, rfl⟩)
              | (injection hres with h2; subst h2; simp at hrate)
              | (have hmem : reasonProj (Except.ok r) ∈ windowsReasons := by
                   rw [← hres]
                   exact checkWindows_reasons _ _ _
                 simp only [reasonProj] at hmem
                 rw [hrate] at hmem
                 exact absurd hmem (by decide))

/-- A configuration whose per-identity buckets refill at rate
`0 / 60 = 0`. -/
def c6ZeroCfg : RateLimitConfig := { request_per_minitue := 0, brust_size := 1 }

/-- The tracked state of identity `"c:p"` after its first admitted message
`"a"` at time 0 under `c6ZeroCfg`: the capacity-1 bucket is depleted and,
with a zero refill rate, stays depleted forever. -/
def c6ZeroState : RateLimiter :=
  { config := c6ZeroCfg
    token_bucket := [("c:p", { capacity := 1, refill_rate := 0, tokens := 0, last_refill := 0 })]
    minitue_counters := [("c:p", { window_size := 60, request := [0] })]
    hour_counters := [("c:p", { window_size := 3600, request := [0] })]
    day_counters := [("c:p", { window_size := 86400, request := [0] })]
    last_messages := [("c:p", ("a", 0))]
    burst_tracker := [("c:p", [0])]
    blocked_users := []
    stats := [("total_requests", 1), ("blocked_requests", 0),
              ("spam_detected", 0), ("burst_violations", 0)]
    last_cleanup := 0 }

/-- C6 (witness): the amended theorem instantiated at a concrete state
where the first failing check is the token bucket and the refill rate is
zero — the cascade (and hence the call) ends in `ZeroDivisionError`, the
second raising path of the amendment. -/
theorem claim_C6_witness :
    RateLimiter.decisionOf (c6ZeroState.check_rate_limit "p" "c" "b" 100) =
      specOrderedDecision c6ZeroState (RateLimiter.getUserId "p" "c") "b" 100 ∧
    specOrderedDecision c6ZeroState (RateLimiter.getUserId "p" "c") "b" 100 =
      Except.error PyExc.zeroDivisionError := by
  constructor
  · exact (claim_C6_amended c6ZeroState "p" "c" "b" 100
      (by
        unfold trackerWF
        simp only [show RateLimiter.getUserId "p" "c" = "c:p" from rfl]
        refine ⟨rfl, rfl, rfl, ?_, ?_, ?_, ?_, ⟨1, rfl⟩, ⟨0, rfl⟩, ⟨0, rfl⟩, rfl⟩
        · intro c hcin
          simp only [c6ZeroState, dictLookup, List.find?] at hcin
          cases hcin
          refine ⟨rfl, by simp, ?_⟩
          intro x hx
          simp only [List.mem_singleton] at hx
          subst hx
          norm_num
        · intro c hcin
          simp only [c6ZeroState, dictLookup, List.find?] at hcin
          cases hcin
          refine ⟨rfl, by simp, ?_⟩
          intro x hx
          simp only [List.mem_singleton] at hx
          subst hx
          norm_num
        · intro c hcin
          simp only [c6ZeroState, dictLookup, List.find?] at hcin
          cases hcin
          refine ⟨rfl, by simp, ?_⟩
          intro x hx
          simp only [List.mem_singleton] at hx
          subst hx
          norm_num
        · intro l hlin
          simp only [c6ZeroState, dictLookup, List.find?] at hlin
          cases hlin
          refine ⟨by simp, ?_⟩
          intro x hx
          simp only [List.mem_singleton] at hx
          subst hx
          norm_num)).1
  · norm_num [specOrderedDecision, specAfterBlocked, dupCond, burstListAt,
      bucketAt, trackerList, windowCount, specWindowsD, c6ZeroState, c6ZeroCfg,
      RateLimiter.getUserId, RateLimiter.messageHash, dictLookup, List.find?,
      List.filter, pyInt,
      show ("b" : String).length = 1 from rfl,
      show (("a" : String) = "b") = False from by simp,
      show ("c" ++ ":" ++ "p" : String) = "c:p" from rfl]

/-! ## `Rag.py` — `RAGCache` query cache (claim C5) -/

/-- A query-cache entry (`{'context': ..., 'timestamp': ..., 'relevance': ...}`). -/
structure CacheEntry where
  context : String
  timestamp : ℚ
  relevance : ℚ
  deriving DecidableEq

structure RAGCache where
  query_cache : List (String × CacheEntry)
  max_query_cache : ℕ
  deriving DecidableEq

namespace RAGCache

/-- `sha256(query.lower())`, modelled as an abstract injective key map
(the identity). -/
def queryKey (query : String) : String := query

/-- `get_cached_query` (lines 526–538): returns the entry only while
`now - timestamp ≤ max_age_seconds`; otherwise the key is popped and
absence returned.  The possibly-evicting cache is returned alongside. -/
def get_cached_query (c : RAGCache) (query : String) (now : ℚ)
    (max_age_seconds : ℚ) : Option CacheEntry × RAGCache :=
  if query = "" then (none, c)
  else
    match dictLookup c.query_cache (queryKey query) with
    | some data =>
        if now - data.timestamp ≤ max_age_seconds then (some data, c)
        else (none,
          { c with query_cache := dictErase c.query_cache (queryKey query) })
    | none => (none,
        { c with query_cache := dictErase c.query_cache (queryKey query) })

/-- `get` (lines 550–557): a plain dictionary lookup — no expiry check of
any kind. -/
def get (c : RAGCache) (key : String) : Option CacheEntry :=
  dictLookup c.query_cache key

end RAGCache

/-- C5 (counterexample): the claim covers "every get-style accessor the
cache exposes", but `RAGCache.get` performs no TTL check: with a TTL of
600 seconds, it happily returns an entry that is 1000 seconds old instead
of evicting it and returning absence. -/
theorem claim_C5_counterexample :
    RAGCache.get ⟨[("k", ⟨"ctx", 0, 1⟩)], 200⟩ "k" = some ⟨"ctx", 0, 1⟩ ∧
      (1000 : ℚ) - (0 : ℚ) > 600 := by
  constructor
  · simp [RAGCache.get, dictLookup, List.find?]
  · norm_num

/-- C5 (amended): the TTL-checking accessor `get_cached_query` never
returns an entry whose age exceeds the given maximum age (an expired entry
is evicted and absence returned); the raw `get` accessor performs no TTL
check at all and can return arbitrarily stale entries. -/
theorem claim_C5_amended (c : RAGCache) (q : String) (now maxAge : ℚ)
    (e : CacheEntry)
    (h : (RAGCache.get_cached_query c q now maxAge).1 = some e) :
    now - e.timestamp ≤ maxAge := by
  unfold RAGCache.get_cached_query at h
  repeat' split at h
  all_goals simp only [] at h
  all_goals
    first
      | (injection h with h2; subst h2; assumption)
      | simp at h

/-- C5 (witness): the amended theorem applied to a fresh entry. -/
theorem claim_C5_witness :
    (10 : ℚ) - (⟨"c", 0, 1⟩ : CacheEntry).timestamp ≤ 600 :=
  claim_C5_amended ⟨[("q", ⟨"c", 0, 1⟩)], 200⟩ "q" 10 600 ⟨"c", 0, 1⟩
    (by norm_num [RAGCache.get_cached_query, RAGCache.queryKey, dictLookup,
      List.find?, show (("q" : String) = "") = False from by simp])

/-! ## `app.py` — `RAGCacheManager.get_or_create_rag` under concurrency (C2)

The function takes the instance lock twice: once to test the cache
(lines 115–124) and once to store the freshly built bot (lines 167–175);
the client-data fetch and the `RAGBot` construction (lines 126–164) run
*outside* the lock, and the cache is never re-checked before the store.
The model below runs several tasks over the shared cache at the
granularity of these lock-protected sections, which is exactly the
atomicity the lock provides. -/

/-- Program counter of one task executing `get_or_create_rag`. -/
inductive GocPC where
  | checkCache
  | building
  | storing
  | finished
  deriving DecidableEq

/-- Shared state: whether an unexpired entry for the client id is in the
cache, how many `RAGBot` constructions have happened so far, and each
task's program counter. -/
structure GocSystem where
  cached : Bool
  constructed : ℕ
  pcs : List GocPC
  deriving DecidableEq

/-- One atomic step of task `i`:

* `checkCache` — under the lock: a hit returns the cached bot (task
  finishes); a miss proceeds to the unlocked build phase;
* `building` — outside the lock: fetch data and construct a `RAGBot`
  (one construction and one embedding-build pass);
* `storing` — under the lock: store the entry (`self._cache[client_id] = …`),
  making subsequent checks hit. -/
def gocStep (sys : GocSystem) (i : ℕ) : GocSystem :=
  match sys.pcs.get? i with
  | some GocPC.checkCache =>
      if sys.cached then { sys with pcs := sys.pcs.set i GocPC.finished }
      else { sys with pcs := sys.pcs.set i GocPC.building }
  | some GocPC.building =>
      { sys with constructed := sys.constructed + 1
                 pcs := sys.pcs.set i GocPC.storing }
  | some GocPC.storing =>
      { sys with cached := true, pcs := sys.pcs.set i GocPC.finished }
  | some GocPC.finished => sys
  | none => sys

/-- Run a schedule (a list of task indices). -/
def gocRun (sys : GocSystem) (sched : List ℕ) : GocSystem :=
  sched.foldl gocStep sys

/-- `n` tasks racing on a client id with no cache entry. -/
def gocInit (n : ℕ) : GocSystem :=
  { cached := false, constructed := 0
    pcs := List.replicate n GocPC.checkCache }

/-- C2 (code bug): two concurrent `get_or_create_rag` calls for the same
absent client id can both run to completion while constructing **two**
`RAGBot` instances (hence two embedding-build passes): both tasks pass the
locked cache check before either stores, because the construction happens
outside the lock and the cache is never re-checked before the store. -/
theorem claim_C2_theorem :
    (gocRun (gocInit 2) [0, 1, 0, 1, 0, 1]).constructed = 2 ∧
      ∀ pc ∈ (gocRun (gocInit 2) [0, 1, 0, 1, 0, 1]).pcs,
        pc = GocPC.finished := by decide

/-! ## `Rag.py` — `_extract_price_from_menu` and `invoke_for_Res` (C3)

The regex patterns of `_extract_price_from_menu` (lines 1193–1222) are
embedded as deterministic character scanners; `re.findall` with
`matches[0]` corresponds to the leftmost match.  Python string
lowering/stripping is modelled character-wise (ASCII case folding, which
is what the menu texts use). -/

/-- ASCII `str.lower()` on one character. -/
def pyCharLower (c : Char) : Char :=
  if 'A' ≤ c ∧ c ≤ 'Z' then Char.ofNat (c.toNat + 32) else c

/-- `str.lower()` (ASCII model). -/
def pyLowerChars (cs : List Char) : List Char := cs.map pyCharLower

/-- `str.strip()`. -/
def trimChars (cs : List Char) : List Char :=
  ((cs.dropWhile (fun c => c.isWhitespace)).reverse.dropWhile
    (fun c => c.isWhitespace)).reverse

/-- Match a literal string at the head of the text; return the rest. -/
def stripPrefixChars : List Char → List Char → Option (List Char)
  | [], t => some t
  | _ :: _, [] => none
  | p :: ps, c :: cs => if p = c then stripPrefixChars ps cs else none

/-- `\d+(\.\d{1,2})?` at the head of the text, as a rational (the value
`float(...)` would produce). -/
def parseNumber (cs : List Char) : Option (ℚ × List Char) :=
  let digits := cs.takeWhile (fun c => c.isDigit)
  if digits.isEmpty then none
  else
    let rest := cs.drop digits.length
    let intVal : ℕ := digits.foldl (fun a c => a * 10 + (c.toNat - 48)) 0
    match rest with
    | '.' :: r2 =>
        let fracs := (r2.takeWhile (fun c => c.isDigit)).take 2
        if fracs.isEmpty then some ((intVal : ℚ), rest)
        else
          let fracVal : ℕ := fracs.foldl (fun a c => a * 10 + (c.toNat - 48)) 0
          some ((intVal : ℚ) + (fracVal : ℚ) / ((10 : ℚ) ^ fracs.length),
            r2.drop fracs.length)
    | _ => some ((intVal : ℚ), rest)

/-- `\s*`. -/
def skipWs (cs : List Char) : List Char :=
  cs.dropWhile (fun c => c.isWhitespace)

/-- `[.\-:]*`. -/
def skipSeps (cs : List Char) : List Char :=
  cs.dropWhile (fun c => c = '.' ∨ c = '-' ∨ c = ':')

/-- `(?:₹|rs\.?|inr)?` over the lowercased text. -/
def skipCurrency (cs : List Char) : List Char :=
  match cs with
  | '₹' :: r => r
  | 'r' :: 's' :: r =>
      match r with
      | '.' :: r2 => r2
      | _ => r
  | 'i' :: 'n' :: 'r' :: r => r
  | _ => cs

/-- The common pattern tail `\s*[.\-:]*\s*(?:₹|rs\.?|inr)?\s*(\d+(\.\d{1,2})?)`. -/
def matchTail1 (cs : List Char) : Option ℚ :=
  (parseNumber (skipWs (skipCurrency (skipWs (skipSeps (skipWs cs)))))).map (·.1)

/-- Pattern 2's middle: `\s+{size}` (the size literal is empty when absent),
then the common tail. -/
def matchTail2 (size : Option (List Char)) (cs : List Char) : Option ℚ :=
  match cs with
  | [] => none
  | c :: rest =>
      if c.isWhitespace then
        match size with
        | some sz => (stripPrefixChars sz (skipWs rest)).bind matchTail1
        | none => matchTail1 (skipWs rest)
      else none

/-- Pattern 3 at one position: `{size}\s+{foodname}` then the common tail
(with `size = none` the pattern degenerates to `\s+{foodname}…`). -/
def matchPat3 (size : Option (List Char)) (food : List Char)
    (cs : List Char) : Option ℚ :=
  match size with
  | some sz =>
      (stripPrefixChars sz cs).bind (fun cs2 =>
        match cs2 with
        | [] => none
        | c :: rest =>
            if c.isWhitespace then
              (stripPrefixChars food (skipWs rest)).bind matchTail1
            else none)
  | none =>
      match cs with
      | [] => none
      | c :: rest =>
          if c.isWhitespace then
            (stripPrefixChars food (skipWs rest)).bind matchTail1
          else none

/-- Leftmost match of a position matcher (`re.findall` + `matches[0]`). -/
def scanFor (matcher : List Char → Option ℚ) : List Char → Option ℚ
  | [] => matcher []
  | text@(_ :: rest) =>
      match matcher text with
      | some v => some v
      | none => scanFor matcher rest

/-- `menu_context.find(foodname)`: the suffix starting at the first
occurrence. -/
def findSuffix (food : List Char) : List Char → Option (List Char)
  | [] => if food.isEmpty then some [] else none
  | text@(_ :: rest) =>
      if (stripPrefixChars food text).isSome then some text
      else findSuffix food rest

/-- The fallback price pattern `(?:₹|rs\.?|inr)?\s*(\d+(\.\d{1,2})?)`. -/
def matchFallback (cs : List Char) : Option ℚ :=
  (parseNumber (skipWs (skipCurrency cs))).map (·.1)

namespace RAGBot

/-- `_extract_price_from_menu` (lines 1171–1228): normalise the inputs,
try the three patterns in order, then the 100-character fallback window
after the first occurrence of the item name. -/
def extract_price_from_menu (menu_context foodname : String)
    (size : Option String) : Option ℚ :=
  let food := trimChars (pyLowerChars foodname.data)
  let sz := size.map (fun s => trimChars (pyLowerChars s.data))
  let menu := pyLowerChars menu_context.data
  match scanFor (fun cs => (stripPrefixChars food cs).bind matchTail1) menu with
  | some v => some v
  | none =>
  match scanFor (fun cs => (stripPrefixChars food cs).bind (matchTail2 sz))
      menu with
  | some v => some v
  | none =>
  match scanFor (matchPat3 sz food) menu with
  | some v => some v
  | none =>
  match findSuffix food menu with
  | some suffix => scanFor matchFallback (suffix.take 100)
  | none => none

end RAGBot

/-- A Python value inside the structured-output dictionary produced by the
`StructuredOutputParser` (whose response schemas are named `status`,
`reason`, `food_name`, `size`, `price`, `quantity` — source lines 87–93). -/
inductive PyVal where
  | str (s : String)
  | num (q : ℚ)
  | bool (b : Bool)
  | pyNone
  deriving DecidableEq

/-- Python truthiness of a dictionary value. -/
def PyVal.truthy : PyVal → Bool
  | .str s => s ≠ ""
  | .num q => q ≠ 0
  | .bool b => b
  | .pyNone => false

/-- `d.get(k, "").strip().lower()`: absent keys default to the empty
string; a non-string value raises `AttributeError` on `.strip()`. -/
def pyStrField (d : List (String × PyVal)) (k : String) :
    Except PyExc String :=
  match dictLookup d k with
  | none => Except.ok ""
  | some (PyVal.str s) =>
      Except.ok (String.mk (pyLowerChars (trimChars s.data)))
  | some _ => Except.error PyExc.attributeError

/-- `d.get("size", "").strip().lower() if d.get("size") else None`. -/
def pySizeField (d : List (String × PyVal)) :
    Except PyExc (Option String) :=
  match dictLookup d "size" with
  | some v =>
      if v.truthy then
        match v with
        | PyVal.str s =>
            Except.ok (some (String.mk (pyLowerChars (trimChars s.data))))
        | _ => Except.error PyExc.attributeError
      else Except.ok none
  | none => Except.ok none

namespace RAGBot

/-- The body of `invoke_for_Res` inside its outer `try` (lines 1084–1163):
the chain outcome is either an exception, a non-dict value, or the parsed
dictionary; `retriever` abstracts `self.retriever` (`none` = absent) with
the documents that `retriever.invoke` returns for the verification query. -/
def invokeForResBody (chainOut : Except PyExc (Option (List (String × PyVal))))
    (retriever : Option (List String)) :
    Except PyExc (List (String × PyVal)) :=
  match chainOut with
  | Except.error e => Except.error e
  | Except.ok none =>
      Except.ok [("status", PyVal.bool false),
        ("reason", PyVal.str "I encountered an error processing your request.")]
  | Except.ok (some response) =>
  if (match dictLookup response "status" with
      | some v => v.truthy
      | none => false) = false then
    Except.ok response
  else
  -- NOTE: the source reads the key `foodname`, but the parser emits
  -- `food_name`, so this lookup always defaults to "".
  match pyStrField response "foodname" with
  | Except.error e => Except.error e
  | Except.ok foodname =>
  match pySizeField response with
  | Except.error e => Except.error e
  | Except.ok size =>
  let priceOk : Bool :=
    match dictLookup response "price" with
    | some v => v ≠ PyVal.pyNone
    | none => false
  if foodname ≠ "" ∧ priceOk = true then
    match retriever with
    | none => Except.ok response
    | some docs =>
        if docs.isEmpty then Except.ok response
        else
          let menu_context := String.intercalate "\n" docs
          match extract_price_from_menu menu_context foodname size with
          | some v =>
              let pricesMatch : Bool :=
                match dictLookup response "price" with
                | some (PyVal.num p) => decide (v = p)
                | _ => false
              if pricesMatch then Except.ok response
              else Except.ok (dictInsert response "price" (PyVal.num v))
          | none => Except.ok response
  else Except.ok response

/-- `invoke_for_Res` (lines 1075–1169), with the guard clauses and the
outer exception handler. -/
def invoke_for_Res (query : String) (chainReady : Bool)
    (chainOut : Except PyExc (Option (List (String × PyVal))))
    (retriever : Option (List String)) : List (String × PyVal) :=
  if query = "" then
    [("status", PyVal.bool false),
     ("reason", PyVal.str "Please provide a question.")]
  else if chainReady = false then
    [("status", PyVal.bool false),
     ("reason", PyVal.str "System not ready. Please try again.")]
  else
    match invokeForResBody chainOut retriever with
    | Except.ok d => d
    | Except.error _ =>
        [("status", PyVal.bool false),
         ("reason", PyVal.str
           "I encountered an error processing your request. Please try again.")]

end RAGBot

/-- The dictionary the structured parser produces for the Masala Dosa
scenario: schema keys (`food_name`, not `foodname`), model-extracted price
120. -/
def c3resp : List (String × PyVal) :=
  [("status", PyVal.bool true), ("reason", PyVal.pyNone),
   ("food_name", PyVal.str "masala dosa"), ("size", PyVal.pyNone),
   ("price", PyVal.num 120), ("quantity", PyVal.num 1)]

/-- C3 (code bug): for the document "Masala Dosa - ₹90" and the model
extraction `{food_name: "masala dosa", price: 120}`, `invoke_for_Res`
returns price 120 unchanged — the verification branch is dead code because
it reads the key `foodname` while the parser emits `food_name` — even
though the verifier itself recovers the menu price 90 ≠ 120 from the
source text (second conjunct). -/
theorem claim_C3_theorem :
    dictLookup (RAGBot.invoke_for_Res "masala dosa price" true
      (Except.ok (some c3resp)) (some ["Masala Dosa - ₹90"])) "price" =
      some (PyVal.num 120) ∧
    RAGBot.extract_price_from_menu "Masala Dosa - ₹90" "masala dosa" none =
      some 90 := by
  constructor
  · decide
  · decide

/-! ## `Rag.py` — `GeminiRESTChat._call_api` and `RAGBot.invoke` (C8) -/

/-- The possible outcomes of one generation-service call, following the
failure taxonomy handled by `_call_api` (lines 254–365). -/
inductive ApiOutcome where
  | timeout
  | connectionError
  | requestException
  | httpError (status : ℕ)
  | invalidJson
  | noCandidates
  | safetyBlocked
  | malformedContent
  | textExtractionError
  | emptyText
  | unexpectedError
  | success (text : String)
  deriving DecidableEq

def ApiOutcome.isFailure : ApiOutcome → Bool
  | .success _ => false
  | _ => true

/-- `str.strip()`. -/
def pyStrip (s : String) : String := String.mk (trimChars s.data)

namespace GeminiRESTChat

/-- `_call_api` (lines 254–365): every failure mode is caught at the call
site and converted to a fixed user-facing string; only the success path
returns (stripped) generated text.  The function is total — it never
propagates an exception. -/
def callApi (o : ApiOutcome) : String :=
  match o with
  | ApiOutcome.timeout =>
      "⌛ The request took too long — maybe the servers need a quick coffee break. Please try again soon ☕"
  | ApiOutcome.httpError status =>
      if status = 400 then
        "Hmm… the request didn’t look quite right. Could you please rephrase that?"
      else if status = 429 then
        "😅 Whoa, too many requests at once! Let’s pause for a second and try again."
      else if status ≥ 500 then
        "The service seems to be having a rough day. Try again after a moment!"
      else
        "😕 I’m having trouble reaching the service right now. Could you try again later?"
  | ApiOutcome.connectionError =>
      "🌐 Looks like there’s a little network hiccup. Please check your connection and try again!"
  | ApiOutcome.requestException =>
      "😕 I’m having trouble reaching the service right now. Could you try again later?"
  | ApiOutcome.invalidJson =>
      "🤖 The server sent something strange that I couldn’t read. Let’s give it another try!"
  | ApiOutcome.noCandidates =>
      "🙇 Sorry, I couldn’t process that properly. Mind trying again?"
  | ApiOutcome.safetyBlocked =>
      "I cannot generate a response because it may violate content policies."
  | ApiOutcome.malformedContent =>
      "I apologize, but I\x27m having trouble processing your request right now."
  | ApiOutcome.textExtractionError =>
      "An internal error occurred while parsing the response."
  | ApiOutcome.emptyText =>
      "I apologize, but I\x27m having trouble processing your request right now."
  | ApiOutcome.unexpectedError =>
      "I encountered an unexpected error. Please try rephrasing your question."
  | ApiOutcome.success text => pyStrip text

end GeminiRESTChat

/-- The response post-processing of `RAGBot.invoke` (lines 1047–1059):
too-short responses are replaced by a fixed apology, the text is stripped,
and a response longer than 20 characters that does not end in terminal
punctuation gets an ellipsis appended. -/
def postProcess (response : String) : String :=
  let response :=
    if response = "" ∨ (pyStrip response).data.length < 3 then
      "I apologize, but I couldn\x27t generate a proper response. Could you rephrase your question?"
    else response
  let response := pyStrip response
  if response ≠ "" ∧ response.data.length > 20 then
    match response.data.getLast? with
    | some c => if c ∈ ['.', '!', '?', '।'] then response else response ++ "..."
    | none => response
  else response

namespace RAGBot

/-- `invoke` (lines 1006–1073): guard clauses, then the chain call (whose
outcome `chainRes` either raises or returns the text the LLM layer
produced — on an API failure, one of `_call_api`'s fixed fallbacks), the
post-processing, and the outer `except` which converts any raised
exception into a fixed apology.  The result is always `Except.ok`. -/
def invoke (query : String) (chainReady : Bool)
    (chainRes : Except PyExc String) : Except PyExc String :=
  if query = "" then Except.ok "Please provide a question."
  else if chainReady = false then
    Except.ok "System not ready. Please try again."
  else
    match chainRes with
    | Except.error _ =>
        Except.ok "I encountered an error processing your request. Please try again later."
    | Except.ok response => Except.ok (postProcess response)

end RAGBot

/-- The fixed set of apologetic user-facing strings an internal failure
can surface as (the timeout fallback gains an ellipsis from the
post-processing because it ends in an emoji). -/
def apologeticResponses : List String :=
  ["⌛ The request took too long — maybe the servers need a quick coffee break. Please try again soon ☕...",
   "Hmm… the request didn’t look quite right. Could you please rephrase that?",
   "😅 Whoa, too many requests at once! Let’s pause for a second and try again.",
   "The service seems to be having a rough day. Try again after a moment!",
   "😕 I’m having trouble reaching the service right now. Could you try again later?",
   "🌐 Looks like there’s a little network hiccup. Please check your connection and try again!",
   "🤖 The server sent something strange that I couldn’t read. Let’s give it another try!",
   "🙇 Sorry, I couldn’t process that properly. Mind trying again?",
   "I cannot generate a response because it may violate content policies.",
   "I apologize, but I\x27m having trouble processing your request right now.",
   "An internal error occurred while parsing the response.",
   "I encountered an unexpected error. Please try rephrasing your question.",
   "I encountered an error processing your request. Please try again later."]

/-- C8: `invoke` always returns a text value (never an exception); a
raised chain exception becomes the fixed apology; and every generation
failure (timeout, connection failure, non-2xx status, malformed body,
safety block, empty candidates, …) surfaces as one of the fixed set of
apologetic user-facing strings. -/
theorem claim_C8_theorem (query : String) (chainReady : Bool)
    (chainRes : Except PyExc String) :
    (∃ s, RAGBot.invoke query chainReady chainRes = Except.ok s) ∧
    (query ≠ "" → chainReady = true → ∀ e, chainRes = Except.error e →
      RAGBot.invoke query chainReady chainRes =
        Except.ok "I encountered an error processing your request. Please try again later.") ∧
    (query ≠ "" → chainReady = true → ∀ o : ApiOutcome, o.isFailure = true →
      chainRes = Except.ok (GeminiRESTChat.callApi o) →
      ∃ s, RAGBot.invoke query chainReady chainRes = Except.ok s ∧
        s ∈ apologeticResponses) := by
  refine ⟨?_, ?_, ?_⟩
  · unfold RAGBot.invoke
    repeat' split
    all_goals exact ⟨_, rfl⟩
  · intro hq hc e he
    subst he
    unfold RAGBot.invoke
    rw [if_neg hq, if_neg (by simp [hc])]
  · intro hq hc o ho he
    subst he
    unfold RAGBot.invoke
    rw [if_neg hq, if_neg (by simp [hc])]
    refine ⟨_, rfl, ?_⟩
    cases o with
    | success t => simp [ApiOutcome.isFailure] at ho
    | httpError status =>
        simp only [GeminiRESTChat.callApi]
        by_cases h4 : status = 400
        · rw [if_pos h4]; decide
        · rw [if_neg h4]
          by_cases h42 : status = 429
          · rw [if_pos h42]; decide
          · rw [if_neg h42]
            by_cases h5 : status ≥ 500
            · rw [if_pos h5]; decide
            · rw [if_neg h5]; decide
    | timeout => decide
    | connectionError => decide
    | requestException => decide
    | invalidJson => decide
    | noCandidates => decide
    | safetyBlocked => decide
    | malformedContent => decide
    | textExtractionError => decide
    | emptyText => decide
    | unexpectedError => decide

/-- C8 (witness): the theorem applied to the timeout outcome. -/
theorem claim_C8_witness :
    ∃ s, RAGBot.invoke "hi" true
        (Except.ok (GeminiRESTChat.callApi ApiOutcome.timeout)) =
      Except.ok s ∧ s ∈ apologeticResponses :=
  ( claim_C8_theorem "hi" true
    (Except.ok (GeminiRESTChat.callApi ApiOutcome.timeout))).2.2
    (by decide) rfl ApiOutcome.timeout rfl rfl

end WhatsAppVerify
